import Mathlib

/-!
# duckdb-sqlsmith: the fuzzing loop and the percentage configuration

A shallow embedding of `src/fuzzyduck.cpp` and `src/random_nums_config.cpp`.

* `std::string` is `String`; `size()` is the number of bytes (`String.utf8ByteSize`).
* The accumulator `total_query_length` of the two loops is taken in `Nat`: it is the sum of the
  sizes of the statements already handed to the engine, so a run cannot take it out of the
  64-bit range.  Where an argument or a run parameter alone can leave the range (the test of
  `GenerateQuery` on its argument `total_query_length`, `timeout_duration * 100` in
  `sleep_thread`, `int` to `idx_t` in `ParseJsonObj`) the `idx_t` arithmetic is reduced modulo
  `2 ^ 64`.
* The engine, the random source, the statement generator, `std::shuffle` and the JSON reader are
  collaborators that the two files only call; they are fields of `Env`, acting on a world `W`.
* What the harness does to the outside (statements handed to `RunQuery`, writes to the log
  sinks, interrupts) is recorded in fields of the `FuzzyDuck` record.
-/

namespace duckdb

/-! ## random_nums_config.cpp -/

/-- Modelled from the spec: the declaration of `enum class RandomPercentagesEnum`
(`include/random_nums_config.hpp`) is not among the sources; the decision points are the
enumerators that `random_nums_config.cpp` names. -/
inductive RandomPercentagesEnum where
  | ATTACH
  | ATTACH_USE
  | DELETE
  | DETACH
  | SELECT
  | SET
  | SELECT_NODE
  | SELECT_NODE_IS_DISTINCT
  | SELECT_NODE_FROM_TABLE
  | SELECT_NODE_WHERE
  | SELECT_NODE_HAVING
  | SELECT_NODE_GROUPS
  | SELECT_NODE_GROUP_BY
  | SELECT_NODE_QUALIFY
  | SELECT_NODE_AGGREGATE
  | SELECT_NODE_SAMPLE
  | SELECT_NODE_SAMPLE_IS_PERC
  | SELECT_NODE_SAMPLE_SIZE
  | RESULT_MODIFIERS
  | LIMIT_PERCENT_MODIFIER
  | LIMIT_PERCENT_MODIFIER_LIMIT
  | LIMIT_PERCENT_MODIFIER_OFFSET
  | LIMIT_MODIFIER_LIMIT
  | LIMIT_MODIFIER_OFFSET
  deriving DecidableEq, Repr, Fintype

/-- An `unordered_map<RandomPercentagesEnum, idx_t>`: `none` is "no entry for this key". -/
abbrev Config := RandomPercentagesEnum → Option Nat

/-- The empty map (a default-constructed `unordered_map`). -/
def Config.empty : Config := fun _ => none

/-- The assignment `m[k] = v`. -/
def Config.set (m : Config) (k : RandomPercentagesEnum) (v : Nat) : Config :=
  fun p => if p = k then some v else m p

/-- The initializer list of `default_config`, in source order. -/
def default_config : List (RandomPercentagesEnum × Nat) :=
  [ (.ATTACH, 40),
    (.ATTACH_USE, 50),
    (.DELETE, 40),
    (.DETACH, 60),
    (.SELECT, 60),
    (.SET, 30) ]

/-- `GetDefaultConfig()`: the map built from the initializer list. -/
def GetDefaultConfig : Config := fun p => default_config.lookup p

/-- The initializer list of the global map `StringToRandomPercentagesEnum`, in source order. -/
def StringToRandomPercentagesEnum : List (String × RandomPercentagesEnum) :=
  [ ("attach_percentage", .ATTACH),
    ("attach_use_percentage", .ATTACH_USE),
    ("delete_percentage", .DELETE),
    ("detach_percentage", .DETACH),
    ("select_percentage", .SELECT),
    ("select_node_perc", .SELECT_NODE),
    ("select_node_is_distinct_perc", .SELECT_NODE_IS_DISTINCT),
    ("select_node_from_table_perc", .SELECT_NODE_FROM_TABLE),
    ("select_node_where_perc", .SELECT_NODE_WHERE),
    ("select_node_having_perc", .SELECT_NODE_HAVING),
    ("select_node_groups_perc", .SELECT_NODE_GROUPS),
    ("select_node_group_by_perc", .SELECT_NODE_GROUP_BY),
    ("select_node_qualify_perc", .SELECT_NODE_QUALIFY),
    ("select_node_aggregate_perc", .SELECT_NODE_AGGREGATE),
    ("select_node_sample_perc", .SELECT_NODE_SAMPLE),
    ("select_node_sample_is_perc", .SELECT_NODE_SAMPLE_IS_PERC),
    ("select_node_sample_size", .SELECT_NODE_SAMPLE_SIZE),
    ("result_modifiers", .RESULT_MODIFIERS),
    ("limit_percent_modifier", .LIMIT_PERCENT_MODIFIER),
    ("limit_percent_modifier_limit", .LIMIT_PERCENT_MODIFIER_LIMIT),
    ("limit_percent_modifier_offset", .LIMIT_PERCENT_MODIFIER_OFFSET),
    ("limit_modifier_limit", .LIMIT_MODIFIER_LIMIT),
    ("limit_modifier_offset", .LIMIT_MODIFIER_OFFSET) ]

/-- The conversion of a `const char *` to `std::string`: the characters before the first NUL. -/
def c_str (s : String) : String := String.mk (s.toList.takeWhile (fun c => c.toNat ≠ 0))

/-- `StringToRandomPercentagesEnum.find(root_key)`, `none` for `end()`.  The key arrives as a
`const char *`. -/
def StringToRandomPercentagesEnum_find (root_key : String) : Option RandomPercentagesEnum :=
  StringToRandomPercentagesEnum.lookup (c_str root_key)

/-- A value of a parsed JSON document (`yyjson_val`).  An object keeps its members in document
order, duplicate keys included. -/
inductive yyjson_val where
  | null
  | bool (b : Bool)
  | num (n : Int)
  | str (s : String)
  | arr (xs : List yyjson_val)
  | obj (kvs : List (String × yyjson_val))

/-- `yyjson_get_str`: the string of a string value, `none` (NULL) for any other value. -/
def yyjson_get_str : yyjson_val → Option String
  | .str s => some s
  | _ => none

/-- `yyjson_is_obj`. -/
def yyjson_is_obj : yyjson_val → Bool
  | .obj _ => true
  | _ => false

/-- The exceptions that leave the modelled functions. -/
inductive Exn where
  | InvalidInputException (msg : String)
  | invalid_argument
  | out_of_range
  deriving DecidableEq, Repr

/-- `isspace` in the "C" locale. -/
def isspace (c : Char) : Bool :=
  c.toNat = 32 || (9 ≤ c.toNat && c.toNat ≤ 13)

/-- The value of a run of decimal digits. -/
def digitsValue (ds : List Char) : Nat :=
  ds.foldl (fun a c => 10 * a + (c.toNat - 48)) 0

/-- The standard `std::stoi(const char *)`, base 10: leading white space is skipped, one sign is
accepted, the longest run of digits is converted and what follows is ignored;
`std::invalid_argument` without a digit, `std::out_of_range` outside the range of `int`. -/
def stoi (str : String) : Except Exn Int :=
  let cs := (c_str str).toList.dropWhile isspace
  let signed : Bool × List Char :=
    match cs with
    | '-' :: r => (true, r)
    | '+' :: r => (false, r)
    | _ => (false, cs)
  let ds := signed.2.takeWhile Char.isDigit
  if ds.isEmpty then
    .error .invalid_argument
  else
    let n : Int := if signed.1 then -(digitsValue ds : Int) else (digitsValue ds : Int)
    if n < -(2 : Int) ^ 31 || (2 : Int) ^ 31 - 1 < n then .error .out_of_range else .ok n

/-- The conversion of an `int` to `idx_t` (64 bits, unsigned). -/
def int_to_idx_t (n : Int) : Nat := (n % (2 : Int) ^ 64).toNat

mutual
/-- `ParseJsonObj(obj, config_from_file)`: `yyjson_obj_foreach` visits the members of an
object and nothing for any other value. -/
def ParseJsonObj : yyjson_val → Config → Except Exn Config
  | .obj kvs, config_from_file => ParseJsonObj_foreach kvs config_from_file
  | _, config_from_file => .ok config_from_file
/-- The body of the `yyjson_obj_foreach` loop, over the members still to visit. -/
def ParseJsonObj_foreach : List (String × yyjson_val) → Config → Except Exn Config
  | [], config_from_file => .ok config_from_file
  | (key, val) :: rest, config_from_file =>
    let assigned : Except Exn Config :=
      match StringToRandomPercentagesEnum_find key with
      | some perc_type =>
        match yyjson_get_str val with
        | some perc_value =>
          match stoi perc_value with
          | .ok n => .ok (config_from_file.set perc_type (int_to_idx_t n))
          | .error e => .error e
        | none => .ok config_from_file
      | none => .ok config_from_file
    match assigned with
    | .error e => .error e
    | .ok c1 =>
      match (if yyjson_is_obj val then ParseJsonObj val c1 else .ok c1) with
      | .error e => .error e
      | .ok c2 => ParseJsonObj_foreach rest c2
end

/-- `GetConfigFromFile(json_string)`; `doc` is what `yyjson_read_file` returned for the path,
`none` when the file could not be read or parsed. -/
def GetConfigFromFile (doc : Option yyjson_val) : Except Exn Config :=
  match doc with
  | some root => if yyjson_is_obj root then ParseJsonObj root Config.empty else .ok Config.empty
  | none => .ok GetDefaultConfig

/-! ## fuzzyduck.cpp -/

/-- `query.size()`: the size of a `std::string` in bytes. -/
def size (s : String) : Nat := s.utf8ByteSize

/-- One `con.Query(query)` as the two threads of `RunQuery` see it: `is_active k` is what the
poller's read number `k` (from 0) of the flag `is_active` returns, `error` is the message of the
result when `result->HasError()`. -/
structure QueryRun where
  is_active : Nat → Bool
  error : Option String

/-- The collaborators of the harness, acting on the world `W` (the client context with its
random engine, the database, the file system). -/
structure Env (W : Type) where
  NextRandomInteger : W → Nat × W
  SetSeed : Nat → W → W
  RandomPercentage : Nat → W → Bool × W
  RandomValue : Nat → W → Nat × W
  GenerateStatement : Config → Bool → W → String × W
  GenerateAllFunctionCalls : W → List String × W
  Query : String → W → QueryRun × W
  yyjson_read_file : String → W → Option yyjson_val
  shuffle : Nat → List String → List String
  shuffle_perm : ∀ seed queries, (shuffle seed queries).Perm queries

/-- A file opened for writing: the `Write` calls made through the handle, in order. -/
structure FileHandle where
  path : String
  written : List String
  closed : Bool
  deriving DecidableEq, Repr

/-- The members of `FuzzyDuck`, followed by the record of what the harness did. -/
structure FuzzyDuck (W : Type) where
  context : W
  seed : Nat
  max_queries : Nat
  max_query_length : Nat
  timeout : Nat
  log : String
  complete_log : String
  randoms_config_filepath : String
  verbose_output : Bool
  enable_verification : Bool
  complete_log_handle : Option FileHandle
  config : Config
  /-- The arguments of the calls of `RunQuery`, in call order. -/
  run_queries : List String
  /-- The values returned by `GenerateQuery` to `Fuzz`, in call order. -/
  generated : List String
  /-- The arguments of `Printer::Print`. -/
  printed : List String
  /-- The successive contents of the file `log` (each write replaces the file). -/
  current_log : List String
  /-- The statements whose connection received `Interrupt()`. -/
  interrupted : List String

/-- What the poller did. -/
structure Poll where
  sleeps : Nat
  timed_out : Bool
  interrupt : Bool
  deriving DecidableEq, Repr

/-- The `for` loop of `sleep_thread`: `i < bound && *is_active`, one sleep per iteration; the
result is the final value of `i`.  The first argument bounds the iterations left. -/
def sleep_thread_for (is_active : Nat → Bool) (bound : Nat) : Nat → Nat → Nat
  | 0, i => i
  | fuel + 1, i =>
    if i < bound && is_active i then sleep_thread_for is_active bound fuel (i + 1) else i

/-- `sleep_thread(con, is_active, timed_out, timeout_duration)`.  Each evaluated
`*is_active` is one read: the loop makes read `i` in iteration `i`, and the `if` after the loop
makes the next one. -/
def sleep_thread (is_active : Nat → Bool) (timeout_duration : Nat) : Poll :=
  let bound := timeout_duration * 100 % 2 ^ 64
  let i := sleep_thread_for is_active bound bound 0
  let reads := if i < bound then i + 1 else i
  if is_active reads then
    { sleeps := i, timed_out := true, interrupt := true }
  else
    { sleeps := i, timed_out := false, interrupt := false }

variable {W : Type}

/-- `FuzzyDuck::LogMessage`. -/
def LogMessage (d : FuzzyDuck W) (message : String) : FuzzyDuck W :=
  if !d.verbose_output then d else { d with printed := d.printed ++ [message] }

/-- `FuzzyDuck::LogToCurrent`: the file `log` is removed, created and written. -/
def LogToCurrent (d : FuzzyDuck W) (message : String) : FuzzyDuck W :=
  if d.log.isEmpty then d else { d with current_log := d.current_log ++ [message] }

/-- `FuzzyDuck::LogToComplete`: the message, then a line break. -/
def LogToComplete (d : FuzzyDuck W) (message : String) : FuzzyDuck W :=
  match d.complete_log_handle with
  | none => d
  | some h =>
    { d with complete_log_handle := some { h with written := h.written ++ [message, "\n"] } }

/-- `FuzzyDuck::LogTask`. -/
def LogTask (d : FuzzyDuck W) (message : String) : FuzzyDuck W :=
  LogToCurrent (if d.verbose_output then LogMessage d (message ++ "\n") else d) message

/-- `FuzzyDuck::LogQuery`. -/
def LogQuery (d : FuzzyDuck W) (message : String) : FuzzyDuck W :=
  LogToComplete
    (LogToCurrent (if d.verbose_output then LogMessage d (message ++ "\n") else d) message)
    message

/-- The message `RunQuery` logs once the poller is joined. -/
def outcome_message (timed_out : Bool) (error : Option String) : String :=
  if timed_out then "TIMEOUT"
  else
    match error with
    | some e => "EXECUTION ERROR: " ++ e
    | none => "EXECUTION SUCCESS!"

/-- `FuzzyDuck::RunQuery(query)`. -/
def RunQuery (env : Env W) (d : FuzzyDuck W) (query : String) : FuzzyDuck W :=
  let d1 := LogQuery { d with run_queries := d.run_queries ++ [query] } (query ++ ";")
  let run := env.Query query d1.context
  let poll := sleep_thread run.1.is_active d1.timeout
  let d2 : FuzzyDuck W :=
    { d1 with
      context := run.2
      interrupted := if poll.interrupt then d1.interrupted ++ [query] else d1.interrupted }
  LogMessage d2 (outcome_message poll.timed_out run.1.error)

/-- `FuzzyDuck::BeginFuzzing`; the first component is the exception thrown, if any. -/
def BeginFuzzing (env : Env W) (d : FuzzyDuck W) : Option Exn × FuzzyDuck W :=
  let r := if d.seed = 0 then env.NextRandomInteger d.context else (d.seed, d.context)
  let d1 : FuzzyDuck W := { d with seed := r.1, context := env.SetSeed r.1 r.2 }
  if d1.max_queries = 0 then
    (some (.InvalidInputException "Provide a max_queries argument greater than 0"), d1)
  else if d1.max_query_length = 0 then
    (some (.InvalidInputException "Provide a max_query_length argument greater than 0"), d1)
  else
    let d2 : FuzzyDuck W :=
      if !d1.complete_log.isEmpty then
        { d1 with
          complete_log_handle := some { path := d1.complete_log, written := [], closed := false } }
      else d1
    let d3 := if d2.enable_verification then RunQuery env d2 "PRAGMA enable_verification" else d2
    if !d3.randoms_config_filepath.isEmpty then
      match GetConfigFromFile (env.yyjson_read_file d3.randoms_config_filepath d3.context) with
      | .ok c => (none, { d3 with config := c })
      | .error e => (some e, d3)
    else
      (none, { d3 with config := GetDefaultConfig })

/-- `FuzzyDuck::EndFuzzing`. -/
def EndFuzzing (d : FuzzyDuck W) : FuzzyDuck W :=
  match d.complete_log_handle with
  | some h => { d with complete_log_handle := some { h with closed := true } }
  | none => d

/-- The `for` loop of the multi-statement branch of `GenerateQuery`, over the iterations left;
the state of the loop is `statement`, `length_multi_statement` and the world.  The sums are
sums of `idx_t`, modulo `2 ^ 64`. -/
def GenerateQuery_for (env : Env W) (config : Config) (verification_enabled : Bool)
    (max_query_length total_query_length : Nat) : Nat → String → Nat → W → String × W
  | 0, statement, _, w => (statement, w)
  | n + 1, statement, length_multi_statement, w =>
    let g := env.GenerateStatement config verification_enabled w
    let statement_i := g.1 ++ "; "
    let length_statement_to_add := size statement_i
    if (total_query_length + length_multi_statement + length_statement_to_add) % 2 ^ 64 >
        max_query_length then
      (statement, g.2)
    else
      GenerateQuery_for env config verification_enabled max_query_length total_query_length n
        (statement ++ statement_i)
        ((length_multi_statement + length_statement_to_add) % 2 ^ 64) g.2

/-- `FuzzyDuck::GenerateQuery(total_query_length)`. -/
def GenerateQuery (env : Env W) (d : FuzzyDuck W) (total_query_length : Nat) :
    String × FuzzyDuck W :=
  let chance := env.RandomPercentage 10 d.context
  if chance.1 then
    let number_of_statements := env.RandomValue 30 chance.2
    let d1 := LogTask { d with context := number_of_statements.2 }
      ("Generating Multi-Statement query of " ++ toString number_of_statements.1 ++ " statements")
    let r := GenerateQuery_for env d1.config d1.enable_verification d1.max_query_length
      total_query_length number_of_statements.1 "" 0 d1.context
    (r.1, { d1 with context := r.2 })
  else
    let d1 := LogTask { d with context := chance.2 } "Generating Single-Statement query"
    let g := env.GenerateStatement d1.config d1.enable_verification d1.context
    (g.1, { d1 with context := g.2 })

/-- The record of a value returned by `GenerateQuery` (no effect in the source). -/
def note_generated (d : FuzzyDuck W) (query : String) : FuzzyDuck W :=
  { d with generated := d.generated ++ [query] }

/-- The `for` loop of `Fuzz`: the iterations left, `i`, `total_query_length`. -/
def Fuzz_for (env : Env W) : Nat → Nat → Nat → FuzzyDuck W → FuzzyDuck W
  | 0, _, _, d => d
  | n + 1, i, total_query_length, d =>
    let d1 := LogMessage d ("Query " ++ toString i ++ "\n")
    let g := GenerateQuery env d1 total_query_length
    let d2 := note_generated g.2 g.1
    let total := total_query_length + (size g.1 + 2)
    if total > d2.max_query_length then
      LogTask d2 ("Max query length (" ++ toString d2.max_query_length ++ ") reached")
    else
      Fuzz_for env n (i + 1) total (RunQuery env d2 g.1)

/-- `FuzzyDuck::Fuzz`; the first component is the exception that ended the call, if any. -/
def Fuzz (env : Env W) (d : FuzzyDuck W) : Option Exn × FuzzyDuck W :=
  let b := BeginFuzzing env d
  match b.1 with
  | some e => (some e, b.2)
  | none =>
    let d1 := LogTask b.2 ("Generating queries with seed " ++ toString b.2.seed)
    (none, EndFuzzing (Fuzz_for env d1.max_queries 0 0 d1))

/-- The range-`for` loop of `FuzzAllFunctions`: the queries left, `total_query_length`. -/
def FuzzAllFunctions_for (env : Env W) : List String → Nat → FuzzyDuck W → FuzzyDuck W
  | [], _, d => d
  | query :: rest, total_query_length, d =>
    let total := total_query_length + (size query + 2)
    if total > d.max_query_length then
      LogTask d ("Max query length (" ++ toString d.max_query_length ++ ") reached")
    else
      FuzzAllFunctions_for env rest total (RunQuery env d query)

/-- `FuzzyDuck::FuzzAllFunctions`; the first component is the exception that ended the call. -/
def FuzzAllFunctions (env : Env W) (d : FuzzyDuck W) : Option Exn × FuzzyDuck W :=
  let all := env.GenerateAllFunctionCalls d.context
  let d0 : FuzzyDuck W := { d with context := all.2 }
  let d1 : FuzzyDuck W := if d0.max_queries = 0 then { d0 with max_queries := all.1.length } else d0
  let queries := env.shuffle d1.seed all.1
  let b := BeginFuzzing env d1
  match b.1 with
  | some e => (some e, b.2)
  | none => (none, EndFuzzing (FuzzAllFunctions_for env queries 0 b.2))


/-! ## Vocabulary of the statements about the configuration -/

mutual
/-- The pairs (decision point, string value) that `ParseJsonObj` assigns, in the order of its
traversal: a member whose key the name map knows and whose value is a string, then the members
of the value when it is an object. -/
def named_values : yyjson_val → List (RandomPercentagesEnum × String)
  | .obj kvs => named_values_members kvs
  | _ => []
/-- The pairs that the loop assigns for the members still to visit. -/
def named_values_members : List (String × yyjson_val) → List (RandomPercentagesEnum × String)
  | [] => []
  | (key, val) :: rest =>
    (match StringToRandomPercentagesEnum_find key, yyjson_get_str val with
      | some perc_type, some perc_value => [(perc_type, perc_value)]
      | _, _ => [])
    ++ (named_values val ++ named_values_members rest)
end

/-- The assignments `config_from_file[perc_type] = std::stoi(perc_value)` for a list of pairs,
in order; the first exception of `std::stoi` ends them. -/
def assign_all : List (RandomPercentagesEnum × String) → Config → Except Exn Config
  | [], c => .ok c
  | (p, s) :: rest, c =>
    match stoi s with
    | .ok n => assign_all rest (c.set p (int_to_idx_t n))
    | .error e => .error e

/-- The decision point `p` is named with the string value `s` in an object, at any depth
reached through object values: some key that the name map sends to `p` has the value `s`. -/
inductive Named : RandomPercentagesEnum → String → yyjson_val → Prop
  | member (kvs : List (String × yyjson_val)) (key s : String) (p : RandomPercentagesEnum) :
      (key, yyjson_val.str s) ∈ kvs → StringToRandomPercentagesEnum_find key = some p →
      Named p s (.obj kvs)
  | nested (kvs inner : List (String × yyjson_val)) (key s : String)
      (p : RandomPercentagesEnum) :
      (key, yyjson_val.obj inner) ∈ kvs → Named p s (.obj inner) → Named p s (.obj kvs)

/-- The decision point `p` is named with the string value `s` somewhere in the structure, at
any nesting depth, as the specification words it: under the members of objects and under the
elements of arrays alike. -/
inductive NamedAnywhere : RandomPercentagesEnum → String → yyjson_val → Prop
  | member (kvs : List (String × yyjson_val)) (key s : String) (p : RandomPercentagesEnum) :
      (key, yyjson_val.str s) ∈ kvs → StringToRandomPercentagesEnum_find key = some p →
      NamedAnywhere p s (.obj kvs)
  | in_object (kvs : List (String × yyjson_val)) (key s : String) (v : yyjson_val)
      (p : RandomPercentagesEnum) :
      (key, v) ∈ kvs → NamedAnywhere p s v → NamedAnywhere p s (.obj kvs)
  | in_array (xs : List yyjson_val) (s : String) (v : yyjson_val) (p : RandomPercentagesEnum) :
      v ∈ xs → NamedAnywhere p s v → NamedAnywhere p s (.arr xs)

/-- The file `{"delete_percentage": "90"}`. -/
def delete_only : yyjson_val := .obj [("delete_percentage", .str "90")]

/-- The file `{"statements": [{"delete_percentage": "90"}]}`. -/
def delete_in_array : yyjson_val :=
  .obj [("statements", .arr [.obj [("delete_percentage", .str "90")]])]

/-- The file `{"delete_percentage": "99999999999"}`. -/
def delete_too_large : yyjson_val := .obj [("delete_percentage", .str "99999999999")]

/-- The file `{"delete_percentage": "abc"}`. -/
def delete_not_a_number : yyjson_val := .obj [("delete_percentage", .str "abc")]


/-! ## Vocabulary of the statements about the loops -/

/-- The cumulative length of a list of statements: `size + 2` for each. -/
def cumulative_length (l : List String) : Nat := (l.map (fun q => size q + 2)).sum

/-- The writes that `LogQuery` makes to the complete sink for a list of statements. -/
def complete_lines (l : List String) : List String := l.flatMap (fun q => [q ++ ";", "\n"])

/-- The complete-log handle after the writes `l` went through it. -/
def append_written (l : List String) (handle : Option FileHandle) : Option FileHandle :=
  handle.map (fun h => { h with written := h.written ++ l })

/-- The statement `BeginFuzzing` executes itself. -/
def verification_pragma (d : FuzzyDuck W) : List String :=
  if d.enable_verification then ["PRAGMA enable_verification"] else []

/-- The random-mode iteration as the specification words it, on a given list of query units:
for `i` in `[0, max_queries)` take the next unit; if adding its length plus 2 would exceed
`max_query_length` stop, otherwise execute it and accumulate its length.  The result is the list
of executed units; the arguments are the iterations left and the accumulated length. -/
def random_mode_executed (max_query_length : Nat) : Nat → Nat → List String → List String
  | 0, _, _ => []
  | _ + 1, _, [] => []
  | n + 1, total, unit :: units =>
    if total + (size unit + 2) > max_query_length then []
    else unit :: random_mode_executed max_query_length n (total + (size unit + 2)) units

/-- The loop of `FuzzAllFunctions` on the statements alone: the statements it executes. -/
def fitting (max_query_length : Nat) : Nat → List String → List String
  | _, [] => []
  | total, query :: rest =>
    if total + (size query + 2) > max_query_length then []
    else query :: fitting max_query_length (total + (size query + 2)) rest

/-- The number of statements of `queries` that fit under `max_query_length`: the number of
positions `k` such that the first `k + 1` statements have a cumulative length within it. -/
def fit_count (max_query_length : Nat) (queries : List String) : Nat :=
  ((List.range queries.length).filter
    (fun k => decide (cumulative_length (queries.take (k + 1)) ≤ max_query_length))).length

/-! ### The steps of `BeginFuzzing`, named -/

/-- The state after the seed is resolved and set. -/
def begin_seeded (env : Env W) (d : FuzzyDuck W) : FuzzyDuck W :=
  { d with
    seed := (if d.seed = 0 then env.NextRandomInteger d.context else (d.seed, d.context)).1
    context := env.SetSeed
      (if d.seed = 0 then env.NextRandomInteger d.context else (d.seed, d.context)).1
      (if d.seed = 0 then env.NextRandomInteger d.context else (d.seed, d.context)).2 }

/-- The step that opens the complete log. -/
def begin_opened (d : FuzzyDuck W) : FuzzyDuck W :=
  if !d.complete_log.isEmpty then
    { d with
      complete_log_handle := some { path := d.complete_log, written := [], closed := false } }
  else d

/-- The step that switches verification on. -/
def begin_verified (env : Env W) (d : FuzzyDuck W) : FuzzyDuck W :=
  if d.enable_verification then RunQuery env d "PRAGMA enable_verification" else d

/-- The step that loads the configuration. -/
def begin_configured (env : Env W) (d : FuzzyDuck W) : Option Exn × FuzzyDuck W :=
  if !d.randoms_config_filepath.isEmpty then
    match GetConfigFromFile (env.yyjson_read_file d.randoms_config_filepath d.context) with
    | .ok c => (none, { d with config := c })
    | .error e => (some e, d)
  else
    (none, { d with config := GetDefaultConfig })

/-! ### The multi-statement branch of `GenerateQuery` -/

/-- The first `n` candidate statements of the generator from the world `w`, in order. -/
def candidates (env : Env W) (config : Config) (verification_enabled : Bool) :
    Nat → W → List String
  | 0, _ => []
  | n + 1, w =>
    (env.GenerateStatement config verification_enabled w).1 ::
      candidates env config verification_enabled n
        (env.GenerateStatement config verification_enabled w).2

/-- The batch made of the given statements: each one followed by the separator. -/
def batch_text (statements : List String) : String :=
  statements.foldl (fun statement s => statement ++ (s ++ "; ")) ""

/-- The batch size that `GenerateQuery` draws in the state `d`. -/
def batch_count (env : Env W) (d : FuzzyDuck W) : Nat :=
  (env.RandomValue 30 (env.RandomPercentage 10 d.context).2).1

/-- The candidate statements of the batch that `GenerateQuery` builds in the state `d`. -/
def batch_candidates (env : Env W) (d : FuzzyDuck W) : List String :=
  candidates env d.config d.enable_verification (batch_count env d)
    (env.RandomValue 30 (env.RandomPercentage 10 d.context).2).2

/-! ### What a step leaves unchanged -/

/-- The state `d2` differs from `d1` in the world and in the verbose and current sinks only. -/
structure Kept (d1 d2 : FuzzyDuck W) : Prop where
  max_queries : d2.max_queries = d1.max_queries
  max_query_length : d2.max_query_length = d1.max_query_length
  complete_log : d2.complete_log = d1.complete_log
  randoms_config_filepath : d2.randoms_config_filepath = d1.randoms_config_filepath
  enable_verification : d2.enable_verification = d1.enable_verification
  complete_log_handle : d2.complete_log_handle = d1.complete_log_handle
  run_queries : d2.run_queries = d1.run_queries
  generated : d2.generated = d1.generated

/-- The state `d2` is `d1` after `RunQuery query`, the world and the other sinks apart. -/
structure Ran (d1 d2 : FuzzyDuck W) (query : String) : Prop where
  max_queries : d2.max_queries = d1.max_queries
  max_query_length : d2.max_query_length = d1.max_query_length
  complete_log : d2.complete_log = d1.complete_log
  randoms_config_filepath : d2.randoms_config_filepath = d1.randoms_config_filepath
  enable_verification : d2.enable_verification = d1.enable_verification
  generated : d2.generated = d1.generated
  run_queries : d2.run_queries = d1.run_queries ++ [query]
  complete_log_handle :
    d2.complete_log_handle = append_written [query ++ ";", "\n"] d1.complete_log_handle



/-! ## Concrete collaborators and runs, for the examples -/

/-- A query that has finished at the poller's first read, without an error. -/
def quick_success : QueryRun := { is_active := fun _ => false, error := none }

/-- Collaborators over a counter: statement number `w` is `SELECT w`, every query succeeds at
once, the enumeration has two statements and the shuffle keeps their order. -/
def counting_env (multi : Bool) : Env Nat where
  NextRandomInteger w := (42, w)
  SetSeed _ w := w
  RandomPercentage _ w := (multi, w)
  RandomValue _ w := (3, w)
  GenerateStatement _ _ w := ("SELECT " ++ toString w, w + 1)
  GenerateAllFunctionCalls w := (["SELECT 1", "SELECT 2"], w)
  Query _ w := (quick_success, w)
  yyjson_read_file _ _ := none
  shuffle _ queries := queries
  shuffle_perm _ queries := List.Perm.refl queries

/-- A fresh harness: nothing logged, nothing run. -/
def fresh (max_queries max_query_length : Nat) (complete_log : String) : FuzzyDuck Nat where
  context := 0
  seed := 1
  max_queries := max_queries
  max_query_length := max_query_length
  timeout := 30
  log := ""
  complete_log := complete_log
  randoms_config_filepath := ""
  verbose_output := false
  enable_verification := false
  complete_log_handle := none
  config := Config.empty
  run_queries := []
  generated := []
  printed := []
  current_log := []
  interrupted := []

/-- A harness with verification and a complete log asked for, and `max_queries` left at 0. -/
def unset_queries : FuzzyDuck Nat :=
  { fresh 0 100 "all.sql" with enable_verification := true }

/-- The collaborators of `counting_env false`, with a config file `{"delete_percentage": "abc"}`
at every path. -/
def bad_config_env : Env Nat :=
  { counting_env false with yyjson_read_file := fun _ _ => some delete_not_a_number }

/-- A fresh harness with `max_queries` left at 0, a ceiling of 15 bytes and a config file. -/
def unset_with_config : FuzzyDuck Nat :=
  { fresh 0 15 "" with randoms_config_filepath := "config.json" }


/-! ## The configuration -/
theorem assign_all_append (a b : List (RandomPercentagesEnum × String)) (c : Config) :
    assign_all (a ++ b) c =
      match assign_all a c with
      | .error e => .error e
      | .ok c1 => assign_all b c1 := by
  induction a generalizing c with
  | nil => simp [assign_all]
  | cons x xs ih =>
    obtain ⟨p, s⟩ := x
    simp only [List.cons_append, assign_all]
    cases stoi s with
    | ok n => simp [ih]
    | error e => simp

mutual
theorem ParseJsonObj_eq_assign_all :
    ∀ (v : yyjson_val) (c : Config), ParseJsonObj v c = assign_all (named_values v) c
  | .obj kvs, c => by
    simp only [ParseJsonObj, named_values]
    exact ParseJsonObj_foreach_eq_assign_all kvs c
  | .null, c => by simp [ParseJsonObj, named_values, assign_all]
  | .bool _, c => by simp [ParseJsonObj, named_values, assign_all]
  | .num _, c => by simp [ParseJsonObj, named_values, assign_all]
  | .str _, c => by simp [ParseJsonObj, named_values, assign_all]
  | .arr _, c => by simp [ParseJsonObj, named_values, assign_all]
theorem ParseJsonObj_foreach_eq_assign_all :
    ∀ (kvs : List (String × yyjson_val)) (c : Config),
      ParseJsonObj_foreach kvs c = assign_all (named_values_members kvs) c
  | [], c => by simp [ParseJsonObj_foreach, named_values_members, assign_all]
  | (key, val) :: rest, c => by
    simp only [ParseJsonObj_foreach, named_values_members]
    cases hk : StringToRandomPercentagesEnum_find key with
    | none =>
      cases val <;>
        simp [yyjson_is_obj, named_values, assign_all, assign_all_append,
          ParseJsonObj_foreach_eq_assign_all rest, ParseJsonObj_eq_assign_all]
    | some p =>
      cases val with
      | str s =>
        simp only [yyjson_get_str, yyjson_is_obj, named_values, List.nil_append,
          List.singleton_append, assign_all]
        cases stoi s with
        | ok n => simp [ParseJsonObj_foreach_eq_assign_all rest]
        | error e => simp
      | obj inner =>
        simp [yyjson_is_obj, yyjson_get_str, named_values, assign_all, assign_all_append,
          ParseJsonObj_foreach_eq_assign_all rest, ParseJsonObj_eq_assign_all]
      | null =>
        simp [yyjson_is_obj, yyjson_get_str, named_values, assign_all,
          ParseJsonObj_foreach_eq_assign_all rest]
      | bool b =>
        simp [yyjson_is_obj, yyjson_get_str, named_values, assign_all,
          ParseJsonObj_foreach_eq_assign_all rest]
      | num n =>
        simp [yyjson_is_obj, yyjson_get_str, named_values, assign_all,
          ParseJsonObj_foreach_eq_assign_all rest]
      | arr xs =>
        simp [yyjson_is_obj, yyjson_get_str, named_values, assign_all,
          ParseJsonObj_foreach_eq_assign_all rest]
end


theorem mem_named_values_members_of_mem (key : String) (val : yyjson_val)
    (kvs : List (String × yyjson_val)) (h : (key, val) ∈ kvs)
    (x : RandomPercentagesEnum × String)
    (hx : x ∈ named_values_members [(key, val)]) : x ∈ named_values_members kvs := by
  induction kvs with
  | nil => simp at h
  | cons kv rest ih =>
    obtain ⟨k, v⟩ := kv
    rcases List.mem_cons.mp h with heq | hmem
    · cases heq
      simp only [named_values_members, List.append_nil, List.mem_append] at hx ⊢
      rcases hx with hx | hx
      · exact Or.inl hx
      · exact Or.inr (Or.inl hx)
    · simp only [named_values_members, List.mem_append]
      exact Or.inr (Or.inr (ih hmem))

theorem Named.mem_named_values {p : RandomPercentagesEnum} {s : String} {v : yyjson_val}
    (h : Named p s v) : (p, s) ∈ named_values v := by
  induction h with
  | member kvs key s p hmem hfind =>
    simp only [named_values]
    apply mem_named_values_members_of_mem key (.str s) kvs hmem
    simp [named_values_members, hfind, yyjson_get_str]
  | nested kvs inner key s p hmem _ ih =>
    simp only [named_values] at ih ⊢
    apply mem_named_values_members_of_mem key (.obj inner) kvs hmem
    simp only [named_values_members, named_values, List.append_nil, List.mem_append]
    exact Or.inr ih

mutual
theorem Named.of_mem_named_values :
    ∀ (v : yyjson_val) (p : RandomPercentagesEnum) (s : String),
      (p, s) ∈ named_values v → Named p s v
  | .obj kvs, p, s, h => by
    simp only [named_values] at h
    have := Named.of_mem_named_values_members kvs p s h
    rcases this with ⟨key, hk, hfind⟩ | ⟨key, inner, hk, hn⟩
    · exact Named.member kvs key s p hk hfind
    · exact Named.nested kvs inner key s p hk hn
  | .null, _, _, h => by simp [named_values] at h
  | .bool _, _, _, h => by simp [named_values] at h
  | .num _, _, _, h => by simp [named_values] at h
  | .str _, _, _, h => by simp [named_values] at h
  | .arr _, _, _, h => by simp [named_values] at h
theorem Named.of_mem_named_values_members :
    ∀ (kvs : List (String × yyjson_val)) (p : RandomPercentagesEnum) (s : String),
      (p, s) ∈ named_values_members kvs →
        (∃ key, (key, yyjson_val.str s) ∈ kvs ∧ StringToRandomPercentagesEnum_find key = some p) ∨
        (∃ key inner, (key, yyjson_val.obj inner) ∈ kvs ∧ Named p s (.obj inner))
  | [], _, _, h => by simp [named_values_members] at h
  | (key, val) :: rest, p, s, h => by
    simp only [named_values_members, List.mem_append] at h
    rcases h with h | h | h
    · left
      refine ⟨key, ?_, ?_⟩
      · cases hf : StringToRandomPercentagesEnum_find key with
        | none => simp [hf] at h
        | some q =>
          cases val <;> simp [hf, yyjson_get_str] at h
          obtain ⟨rfl, rfl⟩ := h
          simp
      · cases hf : StringToRandomPercentagesEnum_find key with
        | none => simp [hf] at h
        | some q =>
          cases val <;> simp [hf, yyjson_get_str] at h
          rw [h.1]
    · right
      cases val with
      | obj inner =>
        exact ⟨key, inner, by simp, Named.of_mem_named_values (.obj inner) p s h⟩
      | null => simp [named_values] at h
      | bool _ => simp [named_values] at h
      | num _ => simp [named_values] at h
      | str _ => simp [named_values] at h
      | arr _ => simp [named_values] at h
    · rcases Named.of_mem_named_values_members rest p s h with ⟨k, hk, hf⟩ | ⟨k, inner, hk, hn⟩
      · exact Or.inl ⟨k, List.mem_cons_of_mem _ hk, hf⟩
      · exact Or.inr ⟨k, inner, List.mem_cons_of_mem _ hk, hn⟩
end

theorem Named_iff_mem (p : RandomPercentagesEnum) (s : String) (v : yyjson_val) :
    Named p s v ↔ (p, s) ∈ named_values v :=
  ⟨Named.mem_named_values, Named.of_mem_named_values v p s⟩

theorem assign_all_spec (l : List (RandomPercentagesEnum × String)) (c : Config)
    (h : ∀ p s, (p, s) ∈ l → ∃ n, stoi s = .ok n) :
    ∃ c1, assign_all l c = .ok c1 ∧
      (∀ p, (∀ s, (p, s) ∉ l) → c1 p = c p) ∧
      (∀ p, (∃ s, (p, s) ∈ l) →
        ∃ s n, (p, s) ∈ l ∧ stoi s = .ok n ∧ c1 p = some (int_to_idx_t n)) := by
  induction l generalizing c with
  | nil => exact ⟨c, rfl, fun _ _ => rfl, fun p ⟨s, hs⟩ => by simp at hs⟩
  | cons x rest ih =>
    obtain ⟨q, t⟩ := x
    obtain ⟨n, hn⟩ := h q t (by simp)
    obtain ⟨c1, hc1, hkeep, hset⟩ :=
      ih (c.set q (int_to_idx_t n)) (fun p s hps => h p s (List.mem_cons_of_mem _ hps))
    refine ⟨c1, by simp [assign_all, hn, hc1], ?_, ?_⟩
    · intro p hp
      have hne : p ≠ q := fun heq => hp t (by simp [heq])
      rw [hkeep p (fun s hs => hp s (List.mem_cons_of_mem _ hs))]
      simp [Config.set, hne]
    · intro p _
      by_cases hr : ∃ s, (p, s) ∈ rest
      · obtain ⟨s, m, hm, hs, hv⟩ := hset p hr
        exact ⟨s, m, List.mem_cons_of_mem _ hm, hs, hv⟩
      · have hnot : ∀ s, (p, s) ∉ rest := fun s hs => hr ⟨s, hs⟩
        have hpq : p = q := by
          by_contra hne
          rename_i hex
          obtain ⟨s, hs⟩ := hex
          rcases List.mem_cons.mp hs with heq | hmem
          · exact hne (by cases heq; rfl)
          · exact hnot s hmem
        subst hpq
        refine ⟨t, n, by simp, hn, ?_⟩
        rw [hkeep p hnot]
        simp [Config.set]


theorem named_values_members_append (a b : List (String × yyjson_val)) :
    named_values_members (a ++ b) = named_values_members a ++ named_values_members b := by
  induction a with
  | nil => simp [named_values_members]
  | cons kv rest ih =>
    obtain ⟨k, v⟩ := kv
    simp [named_values_members, ih]

theorem find_some_mem (name : String) (p : RandomPercentagesEnum)
    (h : StringToRandomPercentagesEnum_find name = some p) :
    p ∈ StringToRandomPercentagesEnum.map Prod.snd := by
  unfold StringToRandomPercentagesEnum_find at h
  generalize StringToRandomPercentagesEnum = table at h ⊢
  induction table with
  | nil => simp [List.lookup] at h
  | cons kv rest ih =>
    obtain ⟨k, v⟩ := kv
    simp only [List.lookup] at h
    split at h
    · simp only [Option.some.injEq] at h
      simp [h]
    · simp only [List.map_cons, List.mem_cons]
      exact Or.inr (ih h)

/-- C8, counterexample: the name map produces `SELECT_NODE` for `select_node_perc`, and the
default table has no entry for it. -/
theorem GetDefaultConfig_misses_select_node :
    StringToRandomPercentagesEnum_find "select_node_perc" = some .SELECT_NODE ∧
    GetDefaultConfig .SELECT_NODE = none ∧
    ¬ (∀ name p, StringToRandomPercentagesEnum_find name = some p →
        (GetDefaultConfig p).isSome = true) := by
  refine ⟨by decide, by decide, fun h => ?_⟩
  have := h "select_node_perc" .SELECT_NODE (by decide)
  revert this
  decide

/-- C8, amended: `GetDefaultConfig` returns the table with exactly the six entries `ATTACH` 40,
`ATTACH_USE` 50, `DELETE` 40, `DETACH` 60, `SELECT` 60 and `SET` 30; of the decision points
that the name map `StringToRandomPercentagesEnum` can produce, those with an entry in the
default table are exactly `ATTACH`, `ATTACH_USE`, `DELETE`, `DETACH` and `SELECT`. -/
theorem GetDefaultConfig_entries :
    (∀ p, GetDefaultConfig p =
      if p = .ATTACH then some 40 else if p = .ATTACH_USE then some 50
      else if p = .DELETE then some 40 else if p = .DETACH then some 60
      else if p = .SELECT then some 60 else if p = .SET then some 30 else none) ∧
    (∀ name p, StringToRandomPercentagesEnum_find name = some p →
      ((GetDefaultConfig p).isSome = true ↔
        p ∈ [RandomPercentagesEnum.ATTACH, .ATTACH_USE, .DELETE, .DETACH, .SELECT])) := by
  refine ⟨by decide, fun name p h => ?_⟩
  have hp := find_some_mem name p h
  clear h
  revert p
  decide

theorem ParseJsonObj_spec (v : yyjson_val) (c0 : Config)
    (h : ∀ p s, Named p s v → ∃ n, stoi s = .ok n) :
    ∃ c, ParseJsonObj v c0 = .ok c ∧
      (∀ p, (¬ ∃ s, Named p s v) → c p = c0 p) ∧
      (∀ p, (∃ s, Named p s v) →
        ∃ s n, Named p s v ∧ stoi s = .ok n ∧ c p = some (int_to_idx_t n)) := by
  obtain ⟨c, hc, hkeep, hset⟩ := assign_all_spec (named_values v) c0
    (fun p s hps => h p s ((Named_iff_mem p s v).mpr hps))
  refine ⟨c, by rw [ParseJsonObj_eq_assign_all, hc], ?_, ?_⟩
  · intro p hp
    exact hkeep p (fun s hs => hp ⟨s, (Named_iff_mem p s v).mpr hs⟩)
  · rintro p ⟨s, hs⟩
    obtain ⟨t, n, ht, hn, hv⟩ := hset p ⟨s, (Named_iff_mem p s v).mp hs⟩
    exact ⟨t, n, (Named_iff_mem p t v).mpr ht, hn, hv⟩

theorem delete_only_named (p : RandomPercentagesEnum) (s : String)
    (h : Named p s delete_only) : p = .DELETE ∧ s = "90" := by
  have hm := (Named_iff_mem p s delete_only).mp h
  have hv : named_values delete_only = [(.DELETE, "90")] := by decide
  rw [hv] at hm
  simpa using hm

/-- C9, counterexample: in `{"statements": [{"delete_percentage": "90"}]}` the name
`delete_percentage` occurs as a key with a string value, inside an array, and `ParseJsonObj`
sets no override for `DELETE`; and the decimal integer `99999999999` makes `std::stoi` throw. -/
theorem ParseJsonObj_skips_arrays :
    NamedAnywhere .DELETE "90" delete_in_array ∧
    (∃ c, ParseJsonObj delete_in_array Config.empty = .ok c ∧ c .DELETE = none) ∧
    ParseJsonObj delete_too_large Config.empty = .error .out_of_range := by
  constructor
  · apply NamedAnywhere.in_object _ "statements" "90" (.arr [.obj [("delete_percentage", .str "90")]])
    · simp
    · apply NamedAnywhere.in_array _ "90" (.obj [("delete_percentage", .str "90")])
      · simp
      · exact NamedAnywhere.member _ "delete_percentage" "90" .DELETE (by simp) (by decide)
  · exact ⟨⟨Config.empty, rfl, rfl⟩, rfl⟩

/-- C9, amended: `ParseJsonObj` is total; when the string values under known names, in the
object and in the objects nested in it through object values, are accepted by `std::stoi`, it
returns, and it sets an override for a decision point if and only if a key that the name map
sends to the point has a string value in the object or in an object reached through object
values (objects inside arrays are not visited); every other entry is left as it was.  A member
whose key is outside the vocabulary and whose value is not an object changes nothing, added or
removed. -/
theorem ParseJsonObj_overrides (v : yyjson_val) (c0 : Config)
    (h : ∀ p s, Named p s v → ∃ n, stoi s = .ok n) :
    (∃ c, ParseJsonObj v c0 = .ok c ∧
      (∀ p, (∃ s, Named p s v) →
        ∃ s n, Named p s v ∧ stoi s = .ok n ∧ c p = some (int_to_idx_t n)) ∧
      (∀ p, (¬ ∃ s, Named p s v) → c p = c0 p)) ∧
    (∀ (before after : List (String × yyjson_val)) (key : String) (val : yyjson_val)
      (c : Config),
      StringToRandomPercentagesEnum_find key = none → yyjson_is_obj val = false →
      ParseJsonObj (.obj (before ++ (key, val) :: after)) c =
        ParseJsonObj (.obj (before ++ after)) c) := by
  constructor
  · obtain ⟨c, hc, hkeep, hset⟩ := ParseJsonObj_spec v c0 h
    exact ⟨c, hc, hset, hkeep⟩
  · intro before after key val c hk hv
    rw [ParseJsonObj_eq_assign_all, ParseJsonObj_eq_assign_all]
    simp only [named_values, named_values_members_append]
    have : named_values_members ((key, val) :: after) = named_values_members after := by
      cases val <;> simp [named_values_members, hk, named_values, yyjson_is_obj] at hv ⊢
    rw [this]



theorem stoi_error (s : String) (e : Exn) (h : stoi s = .error e) :
    e = .invalid_argument ∨ e = .out_of_range := by
  unfold stoi at h
  dsimp only at h
  split_ifs at h
  all_goals
    injection h with h1
    subst h1
    first | exact Or.inl rfl | exact Or.inr rfl

theorem assign_all_error (l : List (RandomPercentagesEnum × String)) (c : Config) (e : Exn)
    (h : assign_all l c = .error e) : e = .invalid_argument ∨ e = .out_of_range := by
  induction l generalizing c with
  | nil => simp [assign_all] at h
  | cons x rest ih =>
    obtain ⟨p, s⟩ := x
    simp only [assign_all] at h
    cases hs : stoi s with
    | ok n =>
      rw [hs] at h
      exact ih _ h
    | error e1 =>
      rw [hs] at h
      cases h
      exact stoi_error s e hs

theorem GetConfigFromFile_error (doc : Option yyjson_val) (e : Exn)
    (h : GetConfigFromFile doc = .error e) : e = .invalid_argument ∨ e = .out_of_range := by
  unfold GetConfigFromFile at h
  split at h
  · split at h
    · rw [ParseJsonObj_eq_assign_all] at h
      exact assign_all_error _ _ e h
    · cases h
  · cases h

/-- The file `{"delete_percentage": "90"}`, parsed into the empty map. -/
theorem ParseJsonObj_overrides_witness :
    (∀ p s, Named p s delete_only → ∃ n, stoi s = .ok n) ∧
    (∃ c, ParseJsonObj delete_only Config.empty = .ok c ∧ c .DELETE = some 90 ∧
      c .SELECT = none) ∧
    (∃ c, ParseJsonObj delete_only Config.empty = .ok c ∧
      (∀ p, (∃ s, Named p s delete_only) →
        ∃ s n, Named p s delete_only ∧ stoi s = .ok n ∧ c p = some (int_to_idx_t n)) ∧
      (∀ p, (¬ ∃ s, Named p s delete_only) → c p = Config.empty p)) :=
  have hyp : ∀ p s, Named p s delete_only → ∃ n, stoi s = .ok n :=
    fun p s hn => ⟨90, by rw [(delete_only_named p s hn).2]; rfl⟩
  ⟨hyp, ⟨Config.empty.set .DELETE 90, rfl, by decide, by decide⟩,
    (ParseJsonObj_overrides delete_only Config.empty hyp).1⟩


/-! ## What the logging functions and `RunQuery` leave unchanged -/

theorem Kept.refl (d : FuzzyDuck W) : Kept d d := by constructor <;> rfl

theorem Kept.trans {d1 d2 d3 : FuzzyDuck W} (h12 : Kept d1 d2) (h23 : Kept d2 d3) :
    Kept d1 d3 := by
  constructor
  · exact h23.max_queries.trans h12.max_queries
  · exact h23.max_query_length.trans h12.max_query_length
  · exact h23.complete_log.trans h12.complete_log
  · exact h23.randoms_config_filepath.trans h12.randoms_config_filepath
  · exact h23.enable_verification.trans h12.enable_verification
  · exact h23.complete_log_handle.trans h12.complete_log_handle
  · exact h23.run_queries.trans h12.run_queries
  · exact h23.generated.trans h12.generated

theorem LogMessage_kept (d : FuzzyDuck W) (m : String) : Kept d (LogMessage d m) := by
  unfold LogMessage
  split
  · exact Kept.refl d
  · constructor <;> rfl

theorem LogToCurrent_kept (d : FuzzyDuck W) (m : String) : Kept d (LogToCurrent d m) := by
  unfold LogToCurrent
  split
  · exact Kept.refl d
  · constructor <;> rfl

theorem LogTask_kept (d : FuzzyDuck W) (m : String) : Kept d (LogTask d m) := by
  unfold LogTask
  split
  · exact (LogMessage_kept d _).trans (LogToCurrent_kept _ m)
  · exact LogToCurrent_kept d m

theorem set_context_kept (d : FuzzyDuck W) (w : W) : Kept d { d with context := w } := by
  constructor <;> rfl

theorem GenerateQuery_kept (env : Env W) (d : FuzzyDuck W) (total : Nat) :
    Kept d (GenerateQuery env d total).2 := by
  by_cases h : (env.RandomPercentage 10 d.context).1 = true
  · simp only [GenerateQuery, h, if_true]
    exact ((set_context_kept d _).trans (LogTask_kept _ _)).trans (set_context_kept _ _)
  · simp only [GenerateQuery, h]
    exact ((set_context_kept d _).trans (LogTask_kept _ _)).trans (set_context_kept _ _)

theorem RunQuery_ran (env : Env W) (d : FuzzyDuck W) (query : String) :
    Ran d (RunQuery env d query) query := by
  cases hv : d.verbose_output <;> cases hl : d.log.isEmpty <;>
    cases hh : d.complete_log_handle <;>
    constructor <;>
    simp [RunQuery, LogQuery, LogMessage, LogToCurrent, LogToComplete, append_written, hv, hl,
      hh]

theorem append_written_nil (handle : Option FileHandle) : append_written [] handle = handle := by
  cases handle <;> simp [append_written]

theorem append_written_append (a b : List String) (handle : Option FileHandle) :
    append_written b (append_written a handle) = append_written (a ++ b) handle := by
  cases handle <;> simp [append_written]

theorem cumulative_length_cons (q : String) (l : List String) :
    cumulative_length (q :: l) = (size q + 2) + cumulative_length l := by
  simp [cumulative_length]

theorem cumulative_length_append (a b : List String) :
    cumulative_length (a ++ b) = cumulative_length a + cumulative_length b := by
  simp [cumulative_length]

theorem complete_lines_cons (q : String) (l : List String) :
    complete_lines (q :: l) = [q ++ ";", "\n"] ++ complete_lines l := by
  simp [complete_lines]

theorem complete_lines_append (a b : List String) :
    complete_lines (a ++ b) = complete_lines a ++ complete_lines b := by
  simp [complete_lines]

/-- One iteration of the loop of `Fuzz` that ends it: the unit is over the length ceiling. -/
theorem Fuzz_for_stop (env : Env W) (n i total : Nat) (d : FuzzyDuck W)
    (g : String × FuzzyDuck W)
    (hg : GenerateQuery env (LogMessage d ("Query " ++ toString i ++ "\n")) total = g)
    (hover : total + (size g.1 + 2) > g.2.max_query_length) :
    Fuzz_for env (n + 1) i total d =
      LogTask (note_generated g.2 g.1)
        ("Max query length (" ++ toString (note_generated g.2 g.1).max_query_length ++
          ") reached") := by
  have hover2 : total + (size g.1 + 2) > (note_generated g.2 g.1).max_query_length := hover
  simp only [Fuzz_for, hg, hover2, if_true]

/-- One iteration of the loop of `Fuzz` that executes its unit. -/
theorem Fuzz_for_next (env : Env W) (n i total : Nat) (d : FuzzyDuck W)
    (g : String × FuzzyDuck W)
    (hg : GenerateQuery env (LogMessage d ("Query " ++ toString i ++ "\n")) total = g)
    (hfit : ¬ total + (size g.1 + 2) > g.2.max_query_length) :
    Fuzz_for env (n + 1) i total d =
      Fuzz_for env n (i + 1) (total + (size g.1 + 2))
        (RunQuery env (note_generated g.2 g.1) g.1) := by
  have hfit2 : ¬ total + (size g.1 + 2) > (note_generated g.2 g.1).max_query_length := hfit
  simp only [Fuzz_for, hg, hfit2, if_false]

theorem Fuzz_for_spec (env : Env W) :
    ∀ (n i total : Nat) (d : FuzzyDuck W), ∃ ex rest,
      (Fuzz_for env n i total d).run_queries = d.run_queries ++ ex ∧
      (Fuzz_for env n i total d).generated = d.generated ++ (ex ++ rest) ∧
      (Fuzz_for env n i total d).max_queries = d.max_queries ∧
      (Fuzz_for env n i total d).max_query_length = d.max_query_length ∧
      (Fuzz_for env n i total d).complete_log_handle =
        append_written (complete_lines ex) d.complete_log_handle ∧
      ex.length ≤ n ∧
      ex = random_mode_executed d.max_query_length n total (ex ++ rest) ∧
      (ex ≠ [] → total + cumulative_length ex ≤ d.max_query_length) ∧
      (rest = [] ∨ ∃ u, rest = [u] ∧
        d.max_query_length < total + cumulative_length ex + (size u + 2)) ∧
      (rest = [] → ex.length = n) := by
  intro n
  induction n with
  | zero =>
    intro i total d
    refine ⟨[], [], ?_⟩
    simp [Fuzz_for, append_written_nil, complete_lines, random_mode_executed]
  | succ n ih =>
    intro i total d
    have k1 := LogMessage_kept d ("Query " ++ toString i ++ "\n")
    have k2 := GenerateQuery_kept env (LogMessage d ("Query " ++ toString i ++ "\n")) total
    have k := k1.trans k2
    generalize hg : GenerateQuery env (LogMessage d ("Query " ++ toString i ++ "\n")) total = g
      at k
    by_cases hover : total + (size g.1 + 2) > g.2.max_query_length
    · refine ⟨[], [g.1], ?_⟩
      rw [Fuzz_for_stop env n i total d g hg hover]
      have k3 := LogTask_kept (note_generated g.2 g.1)
        ("Max query length (" ++ toString (note_generated g.2 g.1).max_query_length ++
          ") reached")
      rw [k.max_query_length] at hover
      refine ⟨?_, ?_, ?_, ?_, ?_, ?_, ?_, ?_, ?_, ?_⟩
      · rw [k3.run_queries]
        show g.2.run_queries = _
        simp [k.run_queries]
      · rw [k3.generated]
        show g.2.generated ++ [g.1] = _
        simp [k.generated]
      · rw [k3.max_queries]; exact k.max_queries
      · rw [k3.max_query_length]; exact k.max_query_length
      · rw [k3.complete_log_handle]
        show g.2.complete_log_handle = _
        simp [k.complete_log_handle, complete_lines, append_written_nil]
      · simp
      · simp [random_mode_executed, hover]
      · simp
      · right
        exact ⟨g.1, rfl, by simpa [cumulative_length] using hover⟩
      · simp
    · rw [Fuzz_for_next env n i total d g hg hover]
      have r := RunQuery_ran env (note_generated g.2 g.1) g.1
      rw [k.max_query_length] at hover
      obtain ⟨ex, rest, h1, h2, h3, h4, h5, h6, h7, h8, h9, h10⟩ :=
        ih (i + 1) (total + (size g.1 + 2)) (RunQuery env (note_generated g.2 g.1) g.1)
      have hL : (RunQuery env (note_generated g.2 g.1) g.1).max_query_length =
          d.max_query_length := by
        rw [r.max_query_length]; exact k.max_query_length
      rw [hL] at h7 h8 h9
      refine ⟨g.1 :: ex, rest, ?_, ?_, ?_, ?_, ?_, ?_, ?_, ?_, ?_, ?_⟩
      · rw [h1, r.run_queries]
        show g.2.run_queries ++ [g.1] ++ ex = _
        simp [k.run_queries]
      · rw [h2, r.generated]
        show g.2.generated ++ [g.1] ++ (ex ++ rest) = _
        simp [k.generated]
      · rw [h3, r.max_queries]; exact k.max_queries
      · rw [h4, hL]
      · rw [h5, r.complete_log_handle]
        show append_written (complete_lines ex)
          (append_written [g.1 ++ ";", "\n"] g.2.complete_log_handle) = _
        rw [append_written_append, k.complete_log_handle, complete_lines_cons]
      · simpa using h6
      · simp only [List.cons_append, random_mode_executed, hover, if_false]
        exact congrArg (List.cons g.1) h7
      · intro _
        rw [cumulative_length_cons]
        by_cases hex : ex = []
        · subst hex
          simp only [cumulative_length, List.map_nil, List.sum_nil]
          omega
        · have := h8 hex
          omega
      · rcases h9 with h9 | ⟨u, hu, hlt⟩
        · exact Or.inl h9
        · right
          refine ⟨u, hu, ?_⟩
          rw [cumulative_length_cons]
          omega
      · intro hr
        simp [h10 hr]

theorem FuzzAllFunctions_for_spec (env : Env W) :
    ∀ (queries : List String) (total : Nat) (d : FuzzyDuck W),
      (FuzzAllFunctions_for env queries total d).run_queries =
        d.run_queries ++ fitting d.max_query_length total queries ∧
      (FuzzAllFunctions_for env queries total d).generated = d.generated ∧
      (FuzzAllFunctions_for env queries total d).max_queries = d.max_queries ∧
      (FuzzAllFunctions_for env queries total d).max_query_length = d.max_query_length ∧
      (FuzzAllFunctions_for env queries total d).complete_log_handle =
        append_written (complete_lines (fitting d.max_query_length total queries))
          d.complete_log_handle := by
  intro queries
  induction queries with
  | nil =>
    intro total d
    simp [FuzzAllFunctions_for, fitting, complete_lines, append_written_nil]
  | cons q rest ih =>
    intro total d
    by_cases hover : total + (size q + 2) > d.max_query_length
    · have k := LogTask_kept d ("Max query length (" ++ toString d.max_query_length ++ ") reached")
      simp only [FuzzAllFunctions_for, fitting, hover, if_true]
      exact ⟨by simp [k.run_queries], k.generated, k.max_queries, k.max_query_length,
        by simp [k.complete_log_handle, complete_lines, append_written_nil]⟩
    · have r := RunQuery_ran env d q
      obtain ⟨h1, h2, h3, h4, h5⟩ := ih (total + (size q + 2)) (RunQuery env d q)
      simp only [FuzzAllFunctions_for, fitting, hover, if_false]
      rw [r.max_query_length] at h1 h5
      refine ⟨?_, ?_, ?_, ?_, ?_⟩
      · rw [h1, r.run_queries]; simp
      · rw [h2, r.generated]
      · rw [h3, r.max_queries]
      · rw [h4, r.max_query_length]
      · rw [h5, r.complete_log_handle, append_written_append, complete_lines_cons]


theorem BeginFuzzing_eq (env : Env W) (d : FuzzyDuck W) :
    BeginFuzzing env d =
      if d.max_queries = 0 then
        (some (.InvalidInputException "Provide a max_queries argument greater than 0"),
          begin_seeded env d)
      else if d.max_query_length = 0 then
        (some (.InvalidInputException "Provide a max_query_length argument greater than 0"),
          begin_seeded env d)
      else begin_configured env (begin_verified env (begin_opened (begin_seeded env d))) :=
  rfl

theorem begin_seeded_kept (env : Env W) (d : FuzzyDuck W) : Kept d (begin_seeded env d) := by
  constructor <;> rfl

theorem begin_configured_kept (env : Env W) (d : FuzzyDuck W) :
    Kept d (begin_configured env d).2 := by
  unfold begin_configured
  split
  · split
    · constructor <;> rfl
    · exact Kept.refl d
  · constructor <;> rfl

theorem begin_configured_exn (env : Env W) (d : FuzzyDuck W) (m : String) :
    (begin_configured env d).1 ≠ some (.InvalidInputException m) := by
  unfold begin_configured
  split
  · split
    · simp
    · rename_i e he
      intro h
      simp only [Option.some.injEq] at h
      subst h
      rcases GetConfigFromFile_error _ _ he with h1 | h1 <;> cases h1
  · simp

theorem BeginFuzzing_invalid (env : Env W) (d : FuzzyDuck W)
    (h : d.max_queries = 0 ∨ d.max_query_length = 0) :
    (∃ m, (BeginFuzzing env d).1 = some (.InvalidInputException m)) ∧
    Kept d (BeginFuzzing env d).2 := by
  rw [BeginFuzzing_eq]
  by_cases hq : d.max_queries = 0
  · simp only [hq, if_true]
    exact ⟨⟨_, rfl⟩, begin_seeded_kept env d⟩
  · have hl : d.max_query_length = 0 := by
      rcases h with h | h
      · exact absurd h hq
      · exact h
    simp only [hq, hl, if_true, if_false]
    exact ⟨⟨_, rfl⟩, begin_seeded_kept env d⟩

/-- The state that `BeginFuzzing` leaves once the parameters are accepted. -/
theorem BeginFuzzing_valid (env : Env W) (d : FuzzyDuck W) (hq : d.max_queries ≠ 0)
    (hl : d.max_query_length ≠ 0) :
    (∀ m, (BeginFuzzing env d).1 ≠ some (.InvalidInputException m)) ∧
    (BeginFuzzing env d).2.run_queries = d.run_queries ++ verification_pragma d ∧
    (BeginFuzzing env d).2.generated = d.generated ∧
    (BeginFuzzing env d).2.max_queries = d.max_queries ∧
    (BeginFuzzing env d).2.max_query_length = d.max_query_length ∧
    (BeginFuzzing env d).2.complete_log_handle =
      append_written (complete_lines (verification_pragma d))
        (if d.complete_log.isEmpty then d.complete_log_handle
          else some { path := d.complete_log, written := [], closed := false }) := by
  rw [BeginFuzzing_eq]
  simp only [hq, hl, if_false]
  have kc := begin_configured_kept env (begin_verified env (begin_opened (begin_seeded env d)))
  have ks := begin_seeded_kept env d
  refine ⟨fun m => begin_configured_exn env _ m, ?_⟩
  rw [kc.run_queries, kc.generated, kc.max_queries, kc.max_query_length, kc.complete_log_handle]
  cases hv : d.enable_verification <;> cases hc : d.complete_log.isEmpty
  all_goals
    simp [begin_verified, begin_opened, begin_seeded, verification_pragma, hv, hc,
      complete_lines, append_written, (RunQuery_ran env _ _).run_queries,
      (RunQuery_ran env _ _).generated, (RunQuery_ran env _ _).max_queries,
      (RunQuery_ran env _ _).max_query_length, (RunQuery_ran env _ _).complete_log_handle]


/-! ## The loops on lists of statements -/

theorem cumulative_length_take_le (l : List String) (k : Nat) :
    cumulative_length (l.take k) ≤ cumulative_length l := by
  have h := cumulative_length_append (l.take k) (l.drop k)
  rw [List.take_append_drop] at h
  omega

theorem fitting_split (L : Nat) :
    ∀ (queries : List String) (total : Nat),
      ∃ rest, queries = fitting L total queries ++ rest := by
  intro queries
  induction queries with
  | nil => intro total; exact ⟨[], by simp [fitting]⟩
  | cons q qs ih =>
    intro total
    by_cases hover : total + (size q + 2) > L
    · exact ⟨q :: qs, by simp [fitting, hover]⟩
    · obtain ⟨rest, hrest⟩ := ih (total + (size q + 2))
      refine ⟨rest, ?_⟩
      simp only [fitting, hover, if_false, List.cons_append]
      exact congrArg (List.cons q) hrest

theorem fitting_within (L : Nat) :
    ∀ (queries : List String) (total : Nat), total ≤ L →
      total + cumulative_length (fitting L total queries) ≤ L := by
  intro queries
  induction queries with
  | nil => intro total h; simpa [fitting, cumulative_length] using h
  | cons q qs ih =>
    intro total h
    by_cases hover : total + (size q + 2) > L
    · simpa [fitting, hover, cumulative_length] using h
    · have := ih (total + (size q + 2)) (by omega)
      simp only [fitting, hover, if_false, cumulative_length_cons]
      omega

theorem fitting_longest (L : Nat) :
    ∀ (queries : List String) (total : Nat) (front back : List String),
      queries = front ++ back → total + cumulative_length front ≤ L →
      front.length ≤ (fitting L total queries).length := by
  intro queries
  induction queries with
  | nil =>
    intro total front back h _
    have : front = [] := by
      cases front with
      | nil => rfl
      | cons a l => simp at h
    simp [this]
  | cons q qs ih =>
    intro total front back h hfit
    cases front with
    | nil => simp
    | cons a l =>
      simp only [List.cons_append, List.cons.injEq] at h
      obtain ⟨rfl, hqs⟩ := h
      rw [cumulative_length_cons] at hfit
      have hover : ¬ total + (size q + 2) > L := by omega
      simp only [fitting, hover, if_false, List.length_cons]
      have := ih (total + (size q + 2)) l back hqs (by omega)
      omega

theorem fitting_eq_random_mode (L : Nat) :
    ∀ (queries : List String) (n total : Nat), queries.length ≤ n →
      fitting L total queries = random_mode_executed L n total queries := by
  intro queries
  induction queries with
  | nil =>
    intro n total _
    cases n <;> simp [fitting, random_mode_executed]
  | cons q qs ih =>
    intro n total h
    cases n with
    | zero => simp at h
    | succ n =>
      simp only [List.length_cons, Nat.add_le_add_iff_right] at h
      simp only [fitting, random_mode_executed]
      split
      · rfl
      · exact congrArg (List.cons q) (ih n _ h)

theorem length_filter_range_lt (m : Nat) :
    ∀ n, ((List.range n).filter (fun k => decide (k < m))).length = min m n := by
  intro n
  induction n with
  | zero => simp
  | succ n ih =>
    rw [List.range_succ, List.filter_append, List.length_append, ih]
    by_cases h : n < m
    · simp [List.filter, h]
      omega
    · simp [List.filter, h]
      omega

theorem fit_count_eq (L : Nat) (queries : List String) :
    fit_count L queries = (fitting L 0 queries).length := by
  obtain ⟨rest, hrest⟩ := fitting_split L queries 0
  have hm : (fitting L 0 queries).length ≤ queries.length := by
    have := congrArg List.length hrest
    simp only [List.length_append] at this
    omega
  have hfilter : (List.range queries.length).filter
      (fun k => decide (cumulative_length (queries.take (k + 1)) ≤ L)) =
      (List.range queries.length).filter
        (fun k => decide (k < (fitting L 0 queries).length)) := by
    apply List.filter_congr
    intro k hk
    have hk : k < queries.length := List.mem_range.mp hk
    simp only [decide_eq_decide]
    constructor
    · intro hle
      have := fitting_longest L queries 0 (queries.take (k + 1)) (queries.drop (k + 1))
        (List.take_append_drop _ _).symm (by omega)
      simp only [List.length_take] at this
      omega
    · intro hlt
      have hw := fitting_within L queries 0 (Nat.zero_le _)
      have htake : queries.take (k + 1) = (fitting L 0 queries).take (k + 1) := by
        conv_lhs => rw [hrest]
        rw [List.take_append_of_le_length (by omega)]
      rw [htake]
      have := cumulative_length_take_le (fitting L 0 queries) (k + 1)
      omega
  unfold fit_count
  rw [hfilter, length_filter_range_lt]
  omega


/-! ## The two run modes -/

theorem EndFuzzing_kept_run (d : FuzzyDuck W) :
    (EndFuzzing d).run_queries = d.run_queries ∧ (EndFuzzing d).generated = d.generated ∧
    (EndFuzzing d).complete_log_handle =
      d.complete_log_handle.map (fun h => { h with closed := true }) := by
  unfold EndFuzzing
  cases h : d.complete_log_handle <;> simp [h]

theorem Fuzz_invalid (env : Env W) (d : FuzzyDuck W)
    (h : d.max_queries = 0 ∨ d.max_query_length = 0) :
    Fuzz env d = BeginFuzzing env d := by
  obtain ⟨⟨m, hm⟩, -⟩ := BeginFuzzing_invalid env d h
  simp only [Fuzz, hm]
  exact Prod.ext hm.symm rfl

theorem Fuzz_exn (env : Env W) (d : FuzzyDuck W) (e : Exn)
    (h : (BeginFuzzing env d).1 = some e) : Fuzz env d = (some e, (BeginFuzzing env d).2) := by
  simp only [Fuzz, h]

theorem Fuzz_ok (env : Env W) (d : FuzzyDuck W) (h : (BeginFuzzing env d).1 = none) :
    Fuzz env d =
      (none, EndFuzzing (Fuzz_for env
        (LogTask (BeginFuzzing env d).2
          ("Generating queries with seed " ++ toString (BeginFuzzing env d).2.seed)).max_queries
        0 0
        (LogTask (BeginFuzzing env d).2
          ("Generating queries with seed " ++ toString (BeginFuzzing env d).2.seed)))) := by
  simp only [Fuzz, h]

/-- The run of `Fuzz` once the parameters are accepted: what is generated, what is executed,
what the complete log receives. -/
theorem Fuzz_run (env : Env W) (d : FuzzyDuck W) (hq : d.max_queries ≠ 0)
    (hl : d.max_query_length ≠ 0) :
    ∃ ex rest,
      (Fuzz env d).2.run_queries = d.run_queries ++ verification_pragma d ++ ex ∧
      (Fuzz env d).2.generated = d.generated ++ (ex ++ rest) ∧
      (Fuzz env d).2.complete_log_handle =
        (append_written (complete_lines (verification_pragma d ++ ex))
          (if d.complete_log.isEmpty then d.complete_log_handle
            else some { path := d.complete_log, written := [], closed := false })).map
          (fun h => { h with closed := (Fuzz env d).1.isNone || h.closed }) ∧
      ex.length ≤ d.max_queries ∧
      ex = random_mode_executed d.max_query_length d.max_queries 0 (ex ++ rest) ∧
      cumulative_length ex ≤ d.max_query_length ∧
      (rest = [] ∨ ∃ u, rest = [u] ∧
        d.max_query_length < cumulative_length ex + (size u + 2)) ∧
      ((Fuzz env d).1 = none → rest = [] → ex.length = d.max_queries) := by
  obtain ⟨hexn, b1, b2, b3, b4, b5⟩ := BeginFuzzing_valid env d hq hl
  cases hb : (BeginFuzzing env d).1 with
  | some e =>
    rw [Fuzz_exn env d e hb]
    refine ⟨[], [], ?_⟩
    simp only [List.append_nil, b1, b2, b5, List.length_nil, Nat.zero_le, true_and,
      cumulative_length, List.map_nil, List.sum_nil, true_or, Option.isNone_some,
      Bool.false_or, reduceCtorEq, false_implies, and_true]
    refine ⟨?_, ?_⟩
    · cases hc : d.complete_log.isEmpty <;> cases hh : d.complete_log_handle <;>
        simp [append_written]
    · cases hmq : d.max_queries <;> simp [random_mode_executed]
  | none =>
    rw [Fuzz_ok env d hb]
    have kt := LogTask_kept (BeginFuzzing env d).2
      ("Generating queries with seed " ++ toString (BeginFuzzing env d).2.seed)
    obtain ⟨ex, rest, h1, h2, h3, h4, h5, h6, h7, h8, h9, h10⟩ :=
      Fuzz_for_spec env
        (LogTask (BeginFuzzing env d).2
          ("Generating queries with seed " ++ toString (BeginFuzzing env d).2.seed)).max_queries
        0 0
        (LogTask (BeginFuzzing env d).2
          ("Generating queries with seed " ++ toString (BeginFuzzing env d).2.seed))
    obtain ⟨e1, e2, e3⟩ := EndFuzzing_kept_run (Fuzz_for env
        (LogTask (BeginFuzzing env d).2
          ("Generating queries with seed " ++ toString (BeginFuzzing env d).2.seed)).max_queries
        0 0
        (LogTask (BeginFuzzing env d).2
          ("Generating queries with seed " ++ toString (BeginFuzzing env d).2.seed)))
    rw [kt.max_queries, b3] at h6 h7 h10
    rw [kt.max_query_length, b4] at h7 h8 h9
    rw [kt.run_queries, b1] at h1
    rw [kt.generated, b2] at h2
    rw [kt.complete_log_handle, b5, append_written_append, ← complete_lines_append] at h5
    refine ⟨ex, rest, ?_, ?_, ?_, h6, h7, ?_, ?_, ?_⟩
    · show (EndFuzzing _).run_queries = _
      rw [e1, h1]
    · show (EndFuzzing _).generated = _
      rw [e2, h2]
    · show (EndFuzzing _).complete_log_handle = _
      rw [e3, h5]
      cases hc : d.complete_log.isEmpty <;> cases hh : d.complete_log_handle <;>
        simp [append_written]
    · by_cases hex : ex = []
      · simp [hex, cumulative_length]
      · have := h8 hex
        omega
    · simpa using h9
    · intro _ hr
      exact h10 hr

theorem FuzzAllFunctions_exn (env : Env W) (d d1 : FuzzyDuck W) (e : Exn)
    (hd : d1 = (if d.max_queries = 0 then
      { d with context := (env.GenerateAllFunctionCalls d.context).2,
               max_queries := (env.GenerateAllFunctionCalls d.context).1.length }
      else { d with context := (env.GenerateAllFunctionCalls d.context).2 }))
    (h : (BeginFuzzing env d1).1 = some e) :
    FuzzAllFunctions env d = (some e, (BeginFuzzing env d1).2) := by
  subst hd
  by_cases hq : d.max_queries = 0
  · simp only [hq, if_true] at h
    simp only [FuzzAllFunctions, hq, if_true, h]
  · simp only [hq, if_false] at h
    simp only [FuzzAllFunctions, hq, if_false, h]

theorem FuzzAllFunctions_ok (env : Env W) (d d1 : FuzzyDuck W)
    (hd : d1 = (if d.max_queries = 0 then
      { d with context := (env.GenerateAllFunctionCalls d.context).2,
               max_queries := (env.GenerateAllFunctionCalls d.context).1.length }
      else { d with context := (env.GenerateAllFunctionCalls d.context).2 }))
    (h : (BeginFuzzing env d1).1 = none) :
    FuzzAllFunctions env d =
      (none, EndFuzzing (FuzzAllFunctions_for env
        (env.shuffle d.seed (env.GenerateAllFunctionCalls d.context).1) 0
        (BeginFuzzing env d1).2)) := by
  subst hd
  by_cases hq : d.max_queries = 0
  · simp only [hq, if_true] at h
    simp only [FuzzAllFunctions, hq, if_true, h]
  · simp only [hq, if_false] at h
    simp only [FuzzAllFunctions, hq, if_false, h]

/-- The state `FuzzAllFunctions` hands to `BeginFuzzing`. -/
theorem FuzzAllFunctions_prepared (env : Env W) (d : FuzzyDuck W) :
    ∃ d1 : FuzzyDuck W,
      d1 = (if d.max_queries = 0 then
        { d with context := (env.GenerateAllFunctionCalls d.context).2,
                 max_queries := (env.GenerateAllFunctionCalls d.context).1.length }
        else { d with context := (env.GenerateAllFunctionCalls d.context).2 }) ∧
      d1.max_queries = (if d.max_queries = 0
        then (env.GenerateAllFunctionCalls d.context).1.length else d.max_queries) ∧
      d1.max_query_length = d.max_query_length ∧
      d1.run_queries = d.run_queries ∧
      d1.generated = d.generated ∧
      d1.complete_log = d.complete_log ∧
      d1.complete_log_handle = d.complete_log_handle ∧
      verification_pragma d1 = verification_pragma d := by
  refine ⟨_, rfl, ?_⟩
  by_cases hq : d.max_queries = 0
  · simp only [hq, if_true, verification_pragma, and_self]
  · simp only [hq, if_false, verification_pragma, and_self]

/-- The run of `FuzzAllFunctions` once the parameters are accepted. -/
theorem FuzzAllFunctions_run (env : Env W) (d : FuzzyDuck W) (hl : d.max_query_length ≠ 0)
    (hn : d.max_queries ≠ 0 ∨ (env.GenerateAllFunctionCalls d.context).1 ≠ []) :
    ∃ ex,
      (FuzzAllFunctions env d).2.run_queries = d.run_queries ++ verification_pragma d ++ ex ∧
      (FuzzAllFunctions env d).2.complete_log_handle =
        (append_written (complete_lines (verification_pragma d ++ ex))
          (if d.complete_log.isEmpty then d.complete_log_handle
            else some { path := d.complete_log, written := [], closed := false })).map
          (fun h => { h with closed := (FuzzAllFunctions env d).1.isNone || h.closed }) ∧
      (∀ m, (FuzzAllFunctions env d).1 ≠ some (.InvalidInputException m)) ∧
      ((FuzzAllFunctions env d).1 = none →
        ex = fitting d.max_query_length 0
          (env.shuffle d.seed (env.GenerateAllFunctionCalls d.context).1)) ∧
      ((FuzzAllFunctions env d).1 ≠ none → ex = []) := by
  obtain ⟨d1, hd1, p1, p2, p3, p4, p5, p6, p7⟩ := FuzzAllFunctions_prepared env d
  have hq1 : d1.max_queries ≠ 0 := by
    rw [p1]
    by_cases hq : d.max_queries = 0
    · simp only [hq, if_true]
      rcases hn with hn | hn
      · exact absurd hq hn
      · simpa using hn
    · simp [hq]
  have hl1 : d1.max_query_length ≠ 0 := by rw [p2]; exact hl
  obtain ⟨hexn, b1, b2, b3, b4, b5⟩ := BeginFuzzing_valid env d1 hq1 hl1
  rw [p3, p7] at b1
  rw [p2] at b4
  rw [p5, p6, p7] at b5
  cases hb : (BeginFuzzing env d1).1 with
  | some e =>
    rw [FuzzAllFunctions_exn env d d1 e hd1 hb]
    refine ⟨[], ?_, ?_, ?_, ?_, fun _ => rfl⟩
    · simp [b1]
    · simp only [b5, List.append_nil, Option.isNone_some, Bool.false_or]
      cases hc : d.complete_log.isEmpty <;> cases hh : d.complete_log_handle <;>
        simp [append_written]
    · intro m hm
      exact hexn m (hb.trans hm)
    · intro h
      simp at h
  | none =>
    rw [FuzzAllFunctions_ok env d d1 hd1 hb]
    obtain ⟨f1, f2, f3, f4, f5⟩ := FuzzAllFunctions_for_spec env
      (env.shuffle d.seed (env.GenerateAllFunctionCalls d.context).1) 0 (BeginFuzzing env d1).2
    obtain ⟨e1, e2, e3⟩ := EndFuzzing_kept_run (FuzzAllFunctions_for env
      (env.shuffle d.seed (env.GenerateAllFunctionCalls d.context).1) 0 (BeginFuzzing env d1).2)
    rw [b4] at f1 f5
    rw [b1] at f1
    rw [b5, append_written_append, ← complete_lines_append] at f5
    refine ⟨fitting d.max_query_length 0
      (env.shuffle d.seed (env.GenerateAllFunctionCalls d.context).1), ?_, ?_, ?_, ?_, ?_⟩
    · show (EndFuzzing _).run_queries = _
      rw [e1, f1]
    · show (EndFuzzing _).complete_log_handle = _
      rw [e3, f5]
      cases hc : d.complete_log.isEmpty <;> cases hh : d.complete_log_handle <;>
        simp [append_written]
    · intro m hm
      simp at hm
    · intro _
      rfl
    · intro hne
      exact absurd rfl hne


/-! ## The claims about the run modes -/

/-- C1: in a run of `Fuzz` with `max_queries > 0` and `max_query_length > 0`, the units handed
to `RunQuery` by the loop (`executed`) are a beginning of the generated units, of at most
`max_queries` elements; the accumulated length after each executed unit is at most
`max_query_length`; and either every generated unit was executed, or exactly one more unit was
generated, it would have pushed the accumulated length above `max_query_length`, it was not
executed and nothing was generated after it.  Without the length stop the loop runs
`max_queries` times. -/
theorem Fuzz_length_budget (env : Env W) (d : FuzzyDuck W) (hq : 0 < d.max_queries)
    (hl : 0 < d.max_query_length) :
    ∃ executed later,
      (Fuzz env d).2.run_queries = d.run_queries ++ verification_pragma d ++ executed ∧
      (Fuzz env d).2.generated = d.generated ++ (executed ++ later) ∧
      executed.length ≤ d.max_queries ∧
      (∀ k, cumulative_length (executed.take k) ≤ d.max_query_length) ∧
      (later = [] ∨ ∃ unit, later = [unit] ∧
        d.max_query_length < cumulative_length executed + (size unit + 2)) ∧
      ((Fuzz env d).1 = none → later = [] → executed.length = d.max_queries) := by
  obtain ⟨ex, rest, h1, h2, -, h4, -, h6, h7, h8⟩ :=
    Fuzz_run env d (Nat.pos_iff_ne_zero.mp hq) (Nat.pos_iff_ne_zero.mp hl)
  refine ⟨ex, rest, h1, h2, h4, ?_, h7, h8⟩
  intro k
  exact le_trans (cumulative_length_take_le ex k) h6

/-- A run of three iterations under a ceiling of 20 bytes: two statements of 8 bytes are
executed, the third is generated and ends the loop. -/
theorem Fuzz_length_budget_witness :
    (0 < (fresh 3 20 "").max_queries ∧ 0 < (fresh 3 20 "").max_query_length) ∧
    (Fuzz (counting_env false) (fresh 3 20 "")).2.run_queries = ["SELECT 0", "SELECT 1"] ∧
    (Fuzz (counting_env false) (fresh 3 20 "")).2.generated =
      ["SELECT 0", "SELECT 1", "SELECT 2"] ∧
    ∃ executed later,
      (Fuzz (counting_env false) (fresh 3 20 "")).2.run_queries =
        (fresh 3 20 "").run_queries ++ verification_pragma (fresh 3 20 "") ++ executed ∧
      (Fuzz (counting_env false) (fresh 3 20 "")).2.generated =
        (fresh 3 20 "").generated ++ (executed ++ later) ∧
      executed.length ≤ (fresh 3 20 "").max_queries ∧
      (∀ k, cumulative_length (executed.take k) ≤ (fresh 3 20 "").max_query_length) ∧
      (later = [] ∨ ∃ unit, later = [unit] ∧
        (fresh 3 20 "").max_query_length < cumulative_length executed + (size unit + 2)) ∧
      ((Fuzz (counting_env false) (fresh 3 20 "")).1 = none → later = [] →
        executed.length = (fresh 3 20 "").max_queries) :=
  ⟨⟨by decide, by decide⟩, by decide, by decide,
    Fuzz_length_budget (counting_env false) (fresh 3 20 "") (by decide) (by decide)⟩

/-- C3: when `max_queries = 0` or `max_query_length = 0`, `BeginFuzzing` throws
`InvalidInputException`, and so does `Fuzz`; the run hands no statement to `RunQuery` (the list
of its arguments is unchanged, the verification pragma included) and leaves the complete-log
handle as it was (it opens nothing); no query unit is generated. -/
theorem BeginFuzzing_rejects_zero (env : Env W) (d : FuzzyDuck W)
    (h : d.max_queries = 0 ∨ d.max_query_length = 0) :
    (∃ m, (BeginFuzzing env d).1 = some (.InvalidInputException m)) ∧
    (∃ m, (Fuzz env d).1 = some (.InvalidInputException m)) ∧
    (Fuzz env d).2.run_queries = d.run_queries ∧
    (Fuzz env d).2.complete_log_handle = d.complete_log_handle ∧
    (Fuzz env d).2.generated = d.generated := by
  obtain ⟨hm, k⟩ := BeginFuzzing_invalid env d h
  rw [Fuzz_invalid env d h]
  exact ⟨hm, hm, k.run_queries, k.complete_log_handle, k.generated⟩

/-- The run of a harness with verification and a complete log asked for and
`max_queries = 0`. -/
theorem BeginFuzzing_rejects_zero_witness :
    (unset_queries.max_queries = 0 ∨ unset_queries.max_query_length = 0) ∧
    (Fuzz (counting_env false) unset_queries).1 =
      some (.InvalidInputException "Provide a max_queries argument greater than 0") ∧
    ((∃ m, (BeginFuzzing (counting_env false) unset_queries).1 =
        some (.InvalidInputException m)) ∧
    (∃ m, (Fuzz (counting_env false) unset_queries).1 = some (.InvalidInputException m)) ∧
    (Fuzz (counting_env false) unset_queries).2.run_queries = unset_queries.run_queries ∧
    (Fuzz (counting_env false) unset_queries).2.complete_log_handle =
      unset_queries.complete_log_handle ∧
    (Fuzz (counting_env false) unset_queries).2.generated = unset_queries.generated) :=
  ⟨Or.inl rfl, by decide,
    BeginFuzzing_rejects_zero (counting_env false) unset_queries (Or.inl rfl)⟩

/-- C4, counterexample: with `max_queries = 0`, a ceiling of 15 bytes and a config file
`{"delete_percentage": "abc"}`, `std::stoi` throws inside `BeginFuzzing`: the run of
`FuzzAllFunctions` ends with `std::invalid_argument` and hands nothing to `RunQuery`, although
the first statement of the shuffled list, 10 bytes with its terminator, fits. -/
theorem FuzzAllFunctions_aborted_by_config :
    unset_with_config.max_queries = 0 ∧ 0 < unset_with_config.max_query_length ∧
    (FuzzAllFunctions bad_config_env unset_with_config).1 = some .invalid_argument ∧
    (FuzzAllFunctions bad_config_env unset_with_config).2.run_queries = [] ∧
    bad_config_env.shuffle unset_with_config.seed
      (bad_config_env.GenerateAllFunctionCalls unset_with_config.context).1 =
      ["SELECT 1", "SELECT 2"] ∧
    cumulative_length ["SELECT 1"] ≤ unset_with_config.max_query_length := by
  decide

/-- C4, amended: in `FuzzAllFunctions` with `max_queries = 0` and `max_query_length > 0`, the
statements handed to `RunQuery` by the loop (`executed`, after the verification pragma of
`BeginFuzzing`, which runs when the enumeration is not empty) are as follows.  In a run that no
exception of the configuration loader aborts (the run returns, or ends with the
`InvalidInputException` of an empty enumeration), they are a beginning of the shuffled list,
their cumulative length is at most `max_query_length`, no beginning of the shuffled list within
`max_query_length` is longer, and their number is the minimum of the size of the enumeration
and the number of statements that fit.  In a run that another exception ends (`std::stoi` on a
value of the config file, inside `BeginFuzzing`), the loop is not reached and they are none. -/
theorem FuzzAllFunctions_unset_max_queries (env : Env W) (d : FuzzyDuck W)
    (hq : d.max_queries = 0) (hl : 0 < d.max_query_length) :
    ∃ executed,
      (FuzzAllFunctions env d).2.run_queries =
        d.run_queries ++
          (if (env.GenerateAllFunctionCalls d.context).1 = [] then []
            else verification_pragma d) ++ executed ∧
      ((∀ e, (FuzzAllFunctions env d).1 = some e → ∃ m, e = .InvalidInputException m) →
        (∃ rest,
          env.shuffle d.seed (env.GenerateAllFunctionCalls d.context).1 = executed ++ rest) ∧
        cumulative_length executed ≤ d.max_query_length ∧
        (∀ front back,
          env.shuffle d.seed (env.GenerateAllFunctionCalls d.context).1 = front ++ back →
          cumulative_length front ≤ d.max_query_length → front.length ≤ executed.length) ∧
        executed.length =
          min (env.GenerateAllFunctionCalls d.context).1.length
            (fit_count d.max_query_length
              (env.shuffle d.seed (env.GenerateAllFunctionCalls d.context).1))) ∧
      ((∃ e, (FuzzAllFunctions env d).1 = some e ∧ ∀ m, e ≠ .InvalidInputException m) →
        executed = []) := by
  have hperm := env.shuffle_perm d.seed (env.GenerateAllFunctionCalls d.context).1
  obtain ⟨rest, hrest⟩ := fitting_split d.max_query_length
    (env.shuffle d.seed (env.GenerateAllFunctionCalls d.context).1) 0
  have hw := fitting_within d.max_query_length
    (env.shuffle d.seed (env.GenerateAllFunctionCalls d.context).1) 0 (Nat.zero_le _)
  have hlong := fitting_longest d.max_query_length
    (env.shuffle d.seed (env.GenerateAllFunctionCalls d.context).1) 0
  have hcount := fit_count_eq d.max_query_length
    (env.shuffle d.seed (env.GenerateAllFunctionCalls d.context).1)
  have hlen : (fitting d.max_query_length 0
      (env.shuffle d.seed (env.GenerateAllFunctionCalls d.context).1)).length ≤
      (env.GenerateAllFunctionCalls d.context).1.length := by
    rw [← hperm.length_eq]
    have := congrArg List.length hrest
    simp only [List.length_append] at this
    omega
  have hfacts : ∀ executed, executed = fitting d.max_query_length 0
        (env.shuffle d.seed (env.GenerateAllFunctionCalls d.context).1) →
      (∃ rest,
        env.shuffle d.seed (env.GenerateAllFunctionCalls d.context).1 = executed ++ rest) ∧
      cumulative_length executed ≤ d.max_query_length ∧
      (∀ front back,
        env.shuffle d.seed (env.GenerateAllFunctionCalls d.context).1 = front ++ back →
        cumulative_length front ≤ d.max_query_length → front.length ≤ executed.length) ∧
      executed.length =
        min (env.GenerateAllFunctionCalls d.context).1.length
          (fit_count d.max_query_length
            (env.shuffle d.seed (env.GenerateAllFunctionCalls d.context).1)) := by
    intro executed hex
    subst hex
    exact ⟨⟨rest, hrest⟩, by omega,
      fun front back hsplit hfit => hlong front back hsplit (by omega), by omega⟩
  by_cases hall : (env.GenerateAllFunctionCalls d.context).1 = []
  · obtain ⟨d1, hd1, p1, -, p3, -, -, -, -⟩ := FuzzAllFunctions_prepared env d
    have hq1 : d1.max_queries = 0 := by rw [p1]; simp [hq, hall]
    obtain ⟨⟨m, hm⟩, k⟩ := BeginFuzzing_invalid env d1 (Or.inl hq1)
    have hs : env.shuffle d.seed (env.GenerateAllFunctionCalls d.context).1 = [] := by
      have hlen0 := hperm.length_eq
      simp only [hall, List.length_nil] at hlen0
      rw [hall]
      exact List.length_eq_zero.mp hlen0
    refine ⟨[], ?_, fun _ => hfacts [] (by rw [hs]; rfl), fun _ => rfl⟩
    rw [FuzzAllFunctions_exn env d d1 _ hd1 hm]
    simp only [hall, if_true, List.append_nil]
    show (BeginFuzzing env d1).2.run_queries = _
    rw [k.run_queries, p3]
  · obtain ⟨ex, r1, -, r3, r4, r5⟩ :=
      FuzzAllFunctions_run env d (Nat.pos_iff_ne_zero.mp hl) (Or.inr hall)
    refine ⟨ex, by rw [r1]; simp [hall], ?_, ?_⟩
    · intro hrun
      have hnone : (FuzzAllFunctions env d).1 = none := by
        cases hr : (FuzzAllFunctions env d).1 with
        | none => rfl
        | some e =>
          obtain ⟨m, hm⟩ := hrun e hr
          exact absurd (hr.trans (congrArg some hm)) (r3 m)
      exact hfacts ex (r4 hnone)
    · rintro ⟨e, he, -⟩
      exact r5 (by rw [he]; exact Option.some_ne_none e)

/-- The enumeration of two statements under a ceiling of 15 bytes: only the first is executed. -/
theorem FuzzAllFunctions_unset_max_queries_witness :
    ((fresh 0 15 "").max_queries = 0 ∧ 0 < (fresh 0 15 "").max_query_length) ∧
    (FuzzAllFunctions (counting_env false) (fresh 0 15 "")).1 = none ∧
    (FuzzAllFunctions (counting_env false) (fresh 0 15 "")).2.run_queries = ["SELECT 1"] ∧
    ∃ executed,
      (FuzzAllFunctions (counting_env false) (fresh 0 15 "")).2.run_queries =
        (fresh 0 15 "").run_queries ++
          (if ((counting_env false).GenerateAllFunctionCalls (fresh 0 15 "").context).1 = []
            then [] else verification_pragma (fresh 0 15 "")) ++ executed ∧
      ((∀ e, (FuzzAllFunctions (counting_env false) (fresh 0 15 "")).1 = some e →
          ∃ m, e = .InvalidInputException m) →
        (∃ rest,
          (counting_env false).shuffle (fresh 0 15 "").seed
            ((counting_env false).GenerateAllFunctionCalls (fresh 0 15 "").context).1 =
            executed ++ rest) ∧
        cumulative_length executed ≤ (fresh 0 15 "").max_query_length ∧
        (∀ front back,
          (counting_env false).shuffle (fresh 0 15 "").seed
            ((counting_env false).GenerateAllFunctionCalls (fresh 0 15 "").context).1 =
            front ++ back →
          cumulative_length front ≤ (fresh 0 15 "").max_query_length →
          front.length ≤ executed.length) ∧
        executed.length =
          min ((counting_env false).GenerateAllFunctionCalls (fresh 0 15 "").context).1.length
            (fit_count (fresh 0 15 "").max_query_length
              ((counting_env false).shuffle (fresh 0 15 "").seed
                ((counting_env false).GenerateAllFunctionCalls
                  (fresh 0 15 "").context).1))) ∧
      ((∃ e, (FuzzAllFunctions (counting_env false) (fresh 0 15 "")).1 = some e ∧
          ∀ m, e ≠ .InvalidInputException m) →
        executed = []) :=
  ⟨⟨rfl, by decide⟩, by decide, by decide,
    FuzzAllFunctions_unset_max_queries (counting_env false) (fresh 0 15 "") rfl (by decide)⟩

/-- C5, counterexample: with `max_queries = 1`, a ceiling of 100 bytes and an enumeration of
two statements, `FuzzAllFunctions` executes both, one more than `max_queries`, whereas the
random-mode iteration on the same units executes the first only. -/
theorem FuzzAllFunctions_exceeds_max_queries :
    (FuzzAllFunctions (counting_env false) (fresh 1 100 "")).1 = none ∧
    (FuzzAllFunctions (counting_env false) (fresh 1 100 "")).2.run_queries =
      ["SELECT 1", "SELECT 2"] ∧
    random_mode_executed 100 1 0 ["SELECT 1", "SELECT 2"] = ["SELECT 1"] ∧
    (Fuzz (counting_env false) (fresh 1 100 "")).2.run_queries.length = 1 ∧
    ¬ (FuzzAllFunctions (counting_env false) (fresh 1 100 "")).2.run_queries.length ≤
      (fresh 1 100 "").max_queries := by
  decide

/-- C5, amended: the list `random_mode_executed` is what the loop of `Fuzz` executes of the
units it generates; `FuzzAllFunctions`, in a run that returns, executes of the shuffled list
what that iteration executes when the count ceiling is the larger of `max_queries` and the
number of enumerated statements.  So it agrees with random mode whenever `max_queries` is at
least that number, and the length ceiling is the only one that stops it. -/
theorem FuzzAllFunctions_as_random_mode (env : Env W) (d : FuzzyDuck W)
    (hq : 0 < d.max_queries) (hl : 0 < d.max_query_length)
    (hrun : (FuzzAllFunctions env d).1 = none) :
    (∃ units, (Fuzz env d).2.generated = d.generated ++ units ∧
      (Fuzz env d).2.run_queries = d.run_queries ++ verification_pragma d ++
        random_mode_executed d.max_query_length d.max_queries 0 units) ∧
    (FuzzAllFunctions env d).2.run_queries = d.run_queries ++ verification_pragma d ++
      random_mode_executed d.max_query_length
        (max d.max_queries
          (env.shuffle d.seed (env.GenerateAllFunctionCalls d.context).1).length) 0
        (env.shuffle d.seed (env.GenerateAllFunctionCalls d.context).1) ∧
    ((env.shuffle d.seed (env.GenerateAllFunctionCalls d.context).1).length ≤ d.max_queries →
      (FuzzAllFunctions env d).2.run_queries = d.run_queries ++ verification_pragma d ++
        random_mode_executed d.max_query_length d.max_queries 0
          (env.shuffle d.seed (env.GenerateAllFunctionCalls d.context).1)) := by
  have hq0 := Nat.pos_iff_ne_zero.mp hq
  have hl0 := Nat.pos_iff_ne_zero.mp hl
  obtain ⟨ex, rest, h1, h2, -, -, h5, -⟩ := Fuzz_run env d hq0 hl0
  obtain ⟨ex2, r1, -, -, r4, -⟩ := FuzzAllFunctions_run env d hl0 (Or.inl hq0)
  have hex2 := r4 hrun
  refine ⟨⟨ex ++ rest, h2, ?_⟩, ?_, ?_⟩
  · rw [h1, ← h5]
  · rw [r1, hex2, fitting_eq_random_mode _ _ _ _ (Nat.le_max_right _ _)]
  · intro hle
    rw [r1, hex2, fitting_eq_random_mode _ _ _ _ hle]

/-- The enumeration of two statements with `max_queries = 2`. -/
theorem FuzzAllFunctions_as_random_mode_witness :
    (0 < (fresh 2 15 "").max_queries ∧ 0 < (fresh 2 15 "").max_query_length ∧
      (FuzzAllFunctions (counting_env false) (fresh 2 15 "")).1 = none) ∧
    (FuzzAllFunctions (counting_env false) (fresh 2 15 "")).2.run_queries = ["SELECT 1"] ∧
    ((∃ units, (Fuzz (counting_env false) (fresh 2 15 "")).2.generated =
        (fresh 2 15 "").generated ++ units ∧
      (Fuzz (counting_env false) (fresh 2 15 "")).2.run_queries =
        (fresh 2 15 "").run_queries ++ verification_pragma (fresh 2 15 "") ++
          random_mode_executed (fresh 2 15 "").max_query_length (fresh 2 15 "").max_queries 0
            units) ∧
    (FuzzAllFunctions (counting_env false) (fresh 2 15 "")).2.run_queries =
      (fresh 2 15 "").run_queries ++ verification_pragma (fresh 2 15 "") ++
        random_mode_executed (fresh 2 15 "").max_query_length
          (max (fresh 2 15 "").max_queries
            ((counting_env false).shuffle (fresh 2 15 "").seed
              ((counting_env false).GenerateAllFunctionCalls
                (fresh 2 15 "").context).1).length) 0
          ((counting_env false).shuffle (fresh 2 15 "").seed
            ((counting_env false).GenerateAllFunctionCalls (fresh 2 15 "").context).1) ∧
    (((counting_env false).shuffle (fresh 2 15 "").seed
        ((counting_env false).GenerateAllFunctionCalls (fresh 2 15 "").context).1).length ≤
        (fresh 2 15 "").max_queries →
      (FuzzAllFunctions (counting_env false) (fresh 2 15 "")).2.run_queries =
        (fresh 2 15 "").run_queries ++ verification_pragma (fresh 2 15 "") ++
          random_mode_executed (fresh 2 15 "").max_query_length (fresh 2 15 "").max_queries 0
            ((counting_env false).shuffle (fresh 2 15 "").seed
              ((counting_env false).GenerateAllFunctionCalls (fresh 2 15 "").context).1))) :=
  ⟨⟨by decide, by decide, by decide⟩, by decide,
    FuzzAllFunctions_as_random_mode (counting_env false) (fresh 2 15 "") (by decide)
      (by decide) (by decide)⟩

theorem sleep_thread_for_bounds (is_active : Nat → Bool) (bound : Nat) :
    ∀ (fuel i : Nat), i ≤ bound →
      i ≤ sleep_thread_for is_active bound fuel i ∧
      sleep_thread_for is_active bound fuel i ≤ bound ∧
      (∀ j, i ≤ j → j < sleep_thread_for is_active bound fuel i → is_active j = true) ∧
      (bound ≤ i + fuel → sleep_thread_for is_active bound fuel i < bound →
        is_active (sleep_thread_for is_active bound fuel i) = false) := by
  intro fuel
  induction fuel with
  | zero =>
    intro i hi
    simp only [sleep_thread_for]
    exact ⟨le_refl _, hi, fun j h1 h2 => absurd h2 (by omega), fun h1 h2 => absurd h2 (by omega)⟩
  | succ fuel ih =>
    intro i hi
    by_cases hc : (decide (i < bound) && is_active i) = true
    · simp only [sleep_thread_for, hc, if_true]
      simp only [Bool.and_eq_true, decide_eq_true_eq] at hc
      obtain ⟨h1, h2, h3, h4⟩ := ih (i + 1) (by omega)
      refine ⟨by omega, h2, ?_, fun hb hlt => h4 (by omega) hlt⟩
      intro j hj hjlt
      by_cases hji : j = i
      · rw [hji]; exact hc.2
      · exact h3 j (by omega) hjlt
    · simp only [sleep_thread_for, hc, Bool.false_eq_true, if_false]
      refine ⟨le_refl _, hi, fun j h1 h2 => absurd h2 (by omega), ?_⟩
      intro _ hlt
      simp only [Bool.and_eq_true, decide_eq_true_eq, not_and, Bool.not_eq_true] at hc
      exact hc hlt

theorem sleep_thread_eq (is_active : Nat → Bool) (timeout_duration : Nat) :
    sleep_thread is_active timeout_duration =
      { sleeps := sleep_thread_for is_active (timeout_duration * 100 % 2 ^ 64)
          (timeout_duration * 100 % 2 ^ 64) 0
        timed_out := is_active
          (if sleep_thread_for is_active (timeout_duration * 100 % 2 ^ 64)
              (timeout_duration * 100 % 2 ^ 64) 0 < timeout_duration * 100 % 2 ^ 64
            then sleep_thread_for is_active (timeout_duration * 100 % 2 ^ 64)
              (timeout_duration * 100 % 2 ^ 64) 0 + 1
            else sleep_thread_for is_active (timeout_duration * 100 % 2 ^ 64)
              (timeout_duration * 100 % 2 ^ 64) 0)
        interrupt := is_active
          (if sleep_thread_for is_active (timeout_duration * 100 % 2 ^ 64)
              (timeout_duration * 100 % 2 ^ 64) 0 < timeout_duration * 100 % 2 ^ 64
            then sleep_thread_for is_active (timeout_duration * 100 % 2 ^ 64)
              (timeout_duration * 100 % 2 ^ 64) 0 + 1
            else sleep_thread_for is_active (timeout_duration * 100 % 2 ^ 64)
              (timeout_duration * 100 % 2 ^ 64) 0) } := by
  unfold sleep_thread
  dsimp only
  cases h : is_active
    (if sleep_thread_for is_active (timeout_duration * 100 % 2 ^ 64)
        (timeout_duration * 100 % 2 ^ 64) 0 < timeout_duration * 100 % 2 ^ 64
      then sleep_thread_for is_active (timeout_duration * 100 % 2 ^ 64)
        (timeout_duration * 100 % 2 ^ 64) 0 + 1
      else sleep_thread_for is_active (timeout_duration * 100 % 2 ^ 64)
        (timeout_duration * 100 % 2 ^ 64) 0) <;> simp

theorem execution_error_ne_timeout (e : String) : "EXECUTION ERROR: " ++ e ≠ "TIMEOUT" := by
  intro h
  have hd := congrArg String.data h
  rw [String.data_append] at hd
  have h0 := congrArg List.head? hd
  have h1 : ("EXECUTION ERROR: ".data ++ e.data).head? = some 'E' := rfl
  have h2 : "TIMEOUT".data.head? = some 'T' := rfl
  rw [h1, h2] at h0
  revert h0
  decide

theorem outcome_message_timeout (timed_out : Bool) (error : Option String)
    (h : outcome_message timed_out error = "TIMEOUT") : timed_out = true := by
  cases timed_out with
  | true => rfl
  | false =>
    cases error with
    | none => revert h; decide
    | some e => exact absurd h (execution_error_ne_timeout e)

theorem RunQuery_outcome (env : Env W) (d : FuzzyDuck W) (query : String) :
    (RunQuery env d query).interrupted =
      (if (sleep_thread (env.Query query d.context).1.is_active d.timeout).interrupt
        then d.interrupted ++ [query] else d.interrupted) ∧
    (RunQuery env d query).printed =
      (if d.verbose_output then
        d.printed ++ [query ++ ";" ++ "\n",
          outcome_message
            (sleep_thread (env.Query query d.context).1.is_active d.timeout).timed_out
            (env.Query query d.context).1.error]
      else d.printed) := by
  cases hv : d.verbose_output <;> cases hl : d.log.isEmpty <;>
    cases hh : d.complete_log_handle <;>
    simp [RunQuery, LogQuery, LogMessage, LogToCurrent, LogToComplete, hv, hl, hh]

/-- The poller against its budget of `timeout_duration * 100 % 2 ^ 64` polls. -/
theorem sleep_thread_spec (is_active : Nat → Bool) (timeout_duration : Nat)
    (hflag : ∀ i j, i ≤ j → is_active i = false → is_active j = false) :
    (sleep_thread is_active timeout_duration).sleeps ≤ timeout_duration * 100 % 2 ^ 64 ∧
    (sleep_thread is_active timeout_duration).timed_out =
      (sleep_thread is_active timeout_duration).interrupt ∧
    ((sleep_thread is_active timeout_duration).timed_out = true ↔
      ∀ k, k ≤ timeout_duration * 100 % 2 ^ 64 → is_active k = true) ∧
    (∀ j, j < timeout_duration * 100 % 2 ^ 64 → is_active j = false →
      (sleep_thread is_active timeout_duration).timed_out = false ∧
      (sleep_thread is_active timeout_duration).interrupt = false ∧
      (sleep_thread is_active timeout_duration).sleeps ≤ j) := by
  obtain ⟨-, hle, htrue, hfalse⟩ := sleep_thread_for_bounds is_active
    (timeout_duration * 100 % 2 ^ 64) (timeout_duration * 100 % 2 ^ 64) 0 (Nat.zero_le _)
  have heq := sleep_thread_eq is_active timeout_duration
  have hsleeps : (sleep_thread is_active timeout_duration).sleeps =
      sleep_thread_for is_active (timeout_duration * 100 % 2 ^ 64)
        (timeout_duration * 100 % 2 ^ 64) 0 := by rw [heq]
  have hsame : (sleep_thread is_active timeout_duration).timed_out =
      (sleep_thread is_active timeout_duration).interrupt := by rw [heq]
  have hread : (sleep_thread is_active timeout_duration).timed_out =
      is_active (if sleep_thread_for is_active (timeout_duration * 100 % 2 ^ 64)
          (timeout_duration * 100 % 2 ^ 64) 0 < timeout_duration * 100 % 2 ^ 64
        then sleep_thread_for is_active (timeout_duration * 100 % 2 ^ 64)
          (timeout_duration * 100 % 2 ^ 64) 0 + 1
        else sleep_thread_for is_active (timeout_duration * 100 % 2 ^ 64)
          (timeout_duration * 100 % 2 ^ 64) 0) := by rw [heq]
  clear heq
  generalize sleep_thread_for is_active (timeout_duration * 100 % 2 ^ 64)
    (timeout_duration * 100 % 2 ^ 64) 0 = f at hle htrue hfalse hsleeps hread
  generalize hB : timeout_duration * 100 % 2 ^ 64 = B at hle htrue hfalse hread
  have hiff : (sleep_thread is_active timeout_duration).timed_out = true ↔
      ∀ k, k ≤ B → is_active k = true := by
    rw [hread]
    by_cases hf : f < B
    · have hoff := hfalse (by omega) hf
      simp only [hf, if_true]
      constructor
      · intro h
        rw [hflag f (f + 1) (by omega) hoff] at h
        cases h
      · intro h
        rw [h f (by omega)] at hoff
        cases hoff
    · have hfB : f = B := by omega
      simp only [hf, if_false]
      constructor
      · intro h k hk
        by_contra hk0
        simp only [Bool.not_eq_true] at hk0
        rw [hfB, hflag k B hk hk0] at h
        cases h
      · intro h
        exact h f (by omega)
  refine ⟨by omega, hsame, hiff, ?_⟩
  intro j hj hoff
  have hfj : f ≤ j := by
    by_contra hlt
    have := htrue j (Nat.zero_le _) (by omega)
    rw [this] at hoff
    cases hoff
  have hno : (sleep_thread is_active timeout_duration).timed_out = false := by
    by_contra hne
    simp only [Bool.not_eq_false] at hne
    have := hiff.mp hne j (by omega)
    rw [this] at hoff
    cases hoff
  exact ⟨hno, by rw [← hsame]; exact hno, by omega⟩

/-- C6, counterexample: with `timeout_duration = 2 ^ 62` the product `timeout_duration * 100`
wraps to 0.  An operation that clears the flag at the poller's read number 50, far within
`100 * 2 ^ 62` polls, is interrupted at once, without a sleep, and `TIMEOUT` is logged. -/
theorem sleep_thread_budget_wraps :
    (fun k => decide (k < 50)) 50 = false ∧ 50 < 100 * 2 ^ 62 ∧
    2 ^ 62 * 100 % 2 ^ 64 = 0 ∧
    sleep_thread (fun k => decide (k < 50)) (2 ^ 62) =
      { sleeps := 0, timed_out := true, interrupt := true } ∧
    outcome_message (sleep_thread (fun k => decide (k < 50)) (2 ^ 62)).timed_out none =
      "TIMEOUT" := by
  decide

/-- C6, amended: the poller, over the values `is_active k` that its successive reads of the
flag return (a flag that is only ever cleared: once read false it stays false), has the polling
budget `timeout_duration * 100` as 64-bit arithmetic gives it, that is modulo `2 ^ 64`, which
is `100 * timeout_duration` whenever that is below `2 ^ 64`.  It sleeps at most that budget of
times, hence at most `100 * timeout_duration` times; `timed_out` is set exactly when the
interrupt is issued; both happen exactly when every read up to the one that follows the budget
returns true; when a read within the budget returns false, the poller leaves without setting
`timed_out`, without interrupting and without sleeping further.  `RunQuery` records the
interrupt and prints the outcome accordingly, and the message is `TIMEOUT` only when the
interrupt was issued. -/
theorem sleep_thread_watchdog (is_active : Nat → Bool) (timeout_duration : Nat)
    (hflag : ∀ i j, i ≤ j → is_active i = false → is_active j = false) :
    ((sleep_thread is_active timeout_duration).sleeps ≤ timeout_duration * 100 % 2 ^ 64 ∧
      (sleep_thread is_active timeout_duration).sleeps ≤ 100 * timeout_duration) ∧
    (sleep_thread is_active timeout_duration).timed_out =
      (sleep_thread is_active timeout_duration).interrupt ∧
    ((sleep_thread is_active timeout_duration).timed_out = true ↔
      ∀ k, k ≤ timeout_duration * 100 % 2 ^ 64 → is_active k = true) ∧
    (∀ j, j < timeout_duration * 100 % 2 ^ 64 → is_active j = false →
      (sleep_thread is_active timeout_duration).timed_out = false ∧
      (sleep_thread is_active timeout_duration).interrupt = false ∧
      (sleep_thread is_active timeout_duration).sleeps ≤ j) ∧
    (timeout_duration * 100 < 2 ^ 64 →
      ((sleep_thread is_active timeout_duration).timed_out = true ↔
        ∀ k, k ≤ 100 * timeout_duration → is_active k = true) ∧
      (∀ j, j < 100 * timeout_duration → is_active j = false →
        (sleep_thread is_active timeout_duration).timed_out = false ∧
        (sleep_thread is_active timeout_duration).interrupt = false ∧
        (sleep_thread is_active timeout_duration).sleeps ≤ j)) ∧
    (∀ error : Option String,
      outcome_message (sleep_thread is_active timeout_duration).timed_out error = "TIMEOUT" →
      (sleep_thread is_active timeout_duration).interrupt = true) ∧
    (∀ (env : Env W) (d : FuzzyDuck W) (query : String),
      (RunQuery env d query).interrupted =
        (if (sleep_thread (env.Query query d.context).1.is_active d.timeout).interrupt
          then d.interrupted ++ [query] else d.interrupted) ∧
      (RunQuery env d query).printed =
        (if d.verbose_output then
          d.printed ++ [query ++ ";" ++ "\n",
            outcome_message
              (sleep_thread (env.Query query d.context).1.is_active d.timeout).timed_out
              (env.Query query d.context).1.error]
        else d.printed)) := by
  obtain ⟨hle, hsame, hiff, hclear⟩ := sleep_thread_spec is_active timeout_duration hflag
  have hB100 : timeout_duration * 100 % 2 ^ 64 ≤ 100 * timeout_duration := by
    rw [Nat.mul_comm]
    exact Nat.mod_le _ _
  refine ⟨⟨hle, le_trans hle hB100⟩, hsame, hiff, hclear, ?_, ?_,
    fun env d query => RunQuery_outcome env d query⟩
  · intro hin
    have hB : timeout_duration * 100 % 2 ^ 64 = 100 * timeout_duration := by
      rw [Nat.mod_eq_of_lt hin, Nat.mul_comm]
    rw [hB] at hiff hclear
    exact ⟨hiff, hclear⟩
  · intro error h
    rw [← hsame]
    exact outcome_message_timeout _ _ h

/-- A query that finishes after three polls of a one-second watchdog. -/
theorem sleep_thread_watchdog_witness :
    (∀ i j, i ≤ j → (fun k => decide (k < 3)) i = false → (fun k => decide (k < 3)) j = false) ∧
    sleep_thread (fun k => decide (k < 3)) 1 =
      { sleeps := 3, timed_out := false, interrupt := false } ∧
    sleep_thread (fun _ => true) 1 = { sleeps := 100, timed_out := true, interrupt := true } ∧
    ((sleep_thread (fun k => decide (k < 3)) 1).sleeps ≤ 1 * 100 % 2 ^ 64 ∧
      (sleep_thread (fun k => decide (k < 3)) 1).sleeps ≤ 100 * 1) ∧
    (sleep_thread (fun k => decide (k < 3)) 1).timed_out =
      (sleep_thread (fun k => decide (k < 3)) 1).interrupt ∧
    ((sleep_thread (fun k => decide (k < 3)) 1).timed_out = true ↔
      ∀ k, k ≤ 1 * 100 % 2 ^ 64 → (fun k => decide (k < 3)) k = true) :=
  have hflag : ∀ i j, i ≤ j → (fun k => decide (k < 3)) i = false →
      (fun k => decide (k < 3)) j = false := by
    intro i j hij hi
    simp only [decide_eq_false_iff_not, Nat.not_lt] at hi ⊢
    omega
  ⟨hflag, by decide, by decide,
    (sleep_thread_watchdog (W := Nat) (fun k => decide (k < 3)) 1 hflag).1,
    (sleep_thread_watchdog (W := Nat) (fun k => decide (k < 3)) 1 hflag).2.1,
    (sleep_thread_watchdog (W := Nat) (fun k => decide (k < 3)) 1 hflag).2.2.1⟩


/-! ## The multi-statement batch -/

theorem size_append (a b : String) : size (a ++ b) = size a + size b := by
  show (a ++ b).utf8ByteSize = a.utf8ByteSize + b.utf8ByteSize
  cases a with
  | mk as =>
    cases b with
    | mk bs =>
      show String.utf8ByteSize ⟨as ++ bs⟩ = _
      simp only [String.utf8ByteSize_mk, String.utf8Len_append]

/-- The text and the length of a batch grown from `statement`. -/
theorem size_foldl_batch (l : List String) (statement : String) :
    size (l.foldl (fun statement s => statement ++ (s ++ "; ")) statement) =
      size statement + (l.map (fun s => size (s ++ "; "))).sum := by
  induction l generalizing statement with
  | nil => simp
  | cons s rest ih =>
    simp only [List.foldl_cons, List.map_cons, List.sum_cons, ih, size_append]
    omega

theorem size_batch_text (l : List String) :
    size (batch_text l) = (l.map (fun s => size (s ++ "; "))).sum := by
  unfold batch_text
  rw [size_foldl_batch]
  show 0 + _ = _
  omega

theorem GenerateQuery_for_spec (env : Env W) (config : Config) (v : Bool) (L prior : Nat) :
    ∀ (n : Nat) (statement : String) (len : Nat) (w : W),
      prior + len + ((candidates env config v n w).map (fun s => size (s ++ "; "))).sum <
        2 ^ 64 →
      ∃ k, k ≤ n ∧
        (GenerateQuery_for env config v L prior n statement len w).1 =
          ((candidates env config v n w).take k).foldl
            (fun statement s => statement ++ (s ++ "; ")) statement ∧
        (∀ j, 0 < j → j ≤ k →
          prior + len + (((candidates env config v n w).take j).map
            (fun s => size (s ++ "; "))).sum ≤ L) ∧
        (k < n →
          L < prior + len + (((candidates env config v n w).take (k + 1)).map
            (fun s => size (s ++ "; "))).sum) := by
  intro n
  induction n with
  | zero =>
    intro statement len w _
    exact ⟨0, le_refl _, by simp [GenerateQuery_for, candidates],
      fun j h1 h2 => absurd h1 (by omega), fun h => absurd h (by omega)⟩
  | succ n ih =>
    intro statement len w hrange
    simp only [candidates, List.map_cons, List.sum_cons] at hrange
    have hsum : (prior + len + size ((env.GenerateStatement config v w).1 ++ "; ")) % 2 ^ 64 =
        prior + len + size ((env.GenerateStatement config v w).1 ++ "; ") :=
      Nat.mod_eq_of_lt (by omega)
    have hlen : (len + size ((env.GenerateStatement config v w).1 ++ "; ")) % 2 ^ 64 =
        len + size ((env.GenerateStatement config v w).1 ++ "; ") :=
      Nat.mod_eq_of_lt (by omega)
    by_cases hover : prior + len + size ((env.GenerateStatement config v w).1 ++ "; ") > L
    · refine ⟨0, Nat.zero_le _, ?_, fun j h1 h2 => absurd h1 (by omega), ?_⟩
      · simp only [GenerateQuery_for, hsum, hover, if_true, List.take_zero, List.foldl_nil]
      · intro _
        simp only [candidates, Nat.zero_add, List.take_succ_cons, List.take_zero,
          List.map_cons, List.map_nil, List.sum_cons, List.sum_nil]
        omega
    · obtain ⟨k, hk, htext, hfit, hstop⟩ := ih
        (statement ++ ((env.GenerateStatement config v w).1 ++ "; "))
        (len + size ((env.GenerateStatement config v w).1 ++ "; "))
        (env.GenerateStatement config v w).2 (by omega)
      refine ⟨k + 1, by omega, ?_, ?_, ?_⟩
      · simp only [GenerateQuery_for, hsum, hlen, hover, if_false, candidates,
          List.take_succ_cons, List.foldl_cons]
        exact htext
      · intro j hj hjk
        cases j with
        | zero => omega
        | succ j =>
          simp only [candidates, List.take_succ_cons, List.map_cons, List.sum_cons]
          by_cases hj0 : j = 0
          · subst hj0
            simp only [List.take_zero, List.map_nil, List.sum_nil]
            omega
          · have := hfit j (by omega) (by omega)
            omega
      · intro hlt
        have := hstop (by omega)
        simp only [candidates, List.take_succ_cons, List.map_cons, List.sum_cons]
        omega

theorem LogTask_fields (d : FuzzyDuck W) (m : String) :
    (LogTask d m).context = d.context ∧ (LogTask d m).config = d.config := by
  cases hv : d.verbose_output <;> cases hl : d.log.isEmpty <;>
    simp [LogTask, LogMessage, LogToCurrent, hv, hl]

theorem GenerateQuery_multi (env : Env W) (d : FuzzyDuck W) (total : Nat)
    (hmulti : (env.RandomPercentage 10 d.context).1 = true) :
    (GenerateQuery env d total).1 =
      (GenerateQuery_for env d.config d.enable_verification d.max_query_length total
        (batch_count env d) "" 0 (env.RandomValue 30 (env.RandomPercentage 10 d.context).2).2).1
    := by
  have k := LogTask_kept
    ({ d with context := (env.RandomValue 30 (env.RandomPercentage 10 d.context).2).2 })
    ("Generating Multi-Statement query of " ++
      toString (env.RandomValue 30 (env.RandomPercentage 10 d.context).2).1 ++ " statements")
  have f := LogTask_fields
    ({ d with context := (env.RandomValue 30 (env.RandomPercentage 10 d.context).2).2 })
    ("Generating Multi-Statement query of " ++
      toString (env.RandomValue 30 (env.RandomPercentage 10 d.context).2).1 ++ " statements")
  simp only [GenerateQuery, hmulti, if_true, batch_count]
  rw [f.1, f.2, k.enable_verification, k.max_query_length]

/-- C10, counterexample: with `max_query_length = 2 ^ 64 - 1` and a prior accumulated length
of `2 ^ 64 - 6`, within the ceiling, the three sums of the test wrap to 4, 14 and 24: the batch
keeps all three candidates, 30 bytes, and the prior length plus the batch is over the ceiling. -/
theorem GenerateQuery_batch_wraps :
    (GenerateQuery (counting_env true) (fresh 3 (2 ^ 64 - 1) "") (2 ^ 64 - 6)).1 =
      "SELECT 0; SELECT 1; SELECT 2; " ∧
    2 ^ 64 - 6 ≤ (fresh 3 (2 ^ 64 - 1) "").max_query_length ∧
    ¬ (2 ^ 64 - 6 +
        size (GenerateQuery (counting_env true) (fresh 3 (2 ^ 64 - 1) "") (2 ^ 64 - 6)).1 ≤
      (fresh 3 (2 ^ 64 - 1) "").max_query_length) := by
  decide

/-- C10, amended: in the multi-statement branch of `GenerateQuery`, for every drawn batch size
and every prior accumulated length such that the prior length plus the text of all the
candidate statements of the batch (separators included) stays below `2 ^ 64`, the returned
batch is the text of the first `k` candidate statements, each followed by `"; "`, where every
non-empty beginning of those `k` keeps the prior length plus the batch length within
`max_query_length`, and `k` is the drawn size unless candidate `k + 1` would exceed the ceiling
(generation stops there, what was appended is kept).  When the prior length is within
`max_query_length`, so is the prior length plus the size of the returned batch. -/
theorem GenerateQuery_multi_statement (env : Env W) (d : FuzzyDuck W)
    (total_query_length : Nat) (hmulti : (env.RandomPercentage 10 d.context).1 = true)
    (hrange : total_query_length + size (batch_text (batch_candidates env d)) < 2 ^ 64) :
    ∃ k, k ≤ batch_count env d ∧
      (GenerateQuery env d total_query_length).1 =
        batch_text ((batch_candidates env d).take k) ∧
      (∀ j, 0 < j → j ≤ k →
        total_query_length + size (batch_text ((batch_candidates env d).take j)) ≤
          d.max_query_length) ∧
      (k < batch_count env d →
        d.max_query_length <
          total_query_length + size (batch_text ((batch_candidates env d).take (k + 1)))) ∧
      (total_query_length ≤ d.max_query_length →
        total_query_length + size (GenerateQuery env d total_query_length).1 ≤
          d.max_query_length) := by
  rw [size_batch_text] at hrange
  obtain ⟨k, hk, htext, hfit, hstop⟩ := GenerateQuery_for_spec env d.config
    d.enable_verification d.max_query_length total_query_length (batch_count env d) "" 0
    (env.RandomValue 30 (env.RandomPercentage 10 d.context).2).2
    (by simpa [batch_candidates] using hrange)
  have hres : (GenerateQuery env d total_query_length).1 =
      batch_text ((batch_candidates env d).take k) := by
    rw [GenerateQuery_multi env d total_query_length hmulti, htext]
    rfl
  refine ⟨k, hk, hres, ?_, ?_, ?_⟩
  · intro j hj hjk
    rw [size_batch_text]
    have := hfit j hj hjk
    simpa [batch_candidates] using this
  · intro hlt
    rw [size_batch_text]
    have := hstop hlt
    simpa [batch_candidates] using this
  · intro hprior
    rw [hres]
    by_cases hk0 : k = 0
    · subst hk0
      simp only [List.take_zero, size_batch_text, List.map_nil, List.sum_nil]
      omega
    · rw [size_batch_text]
      have := hfit k (by omega) (le_refl _)
      simpa [batch_candidates] using this

/-- A batch of three candidates of 10 bytes each (separator included) after 5 bytes, under a
ceiling of 25 bytes: two statements are kept. -/
theorem GenerateQuery_multi_statement_witness :
    (((counting_env true).RandomPercentage 10 (fresh 3 25 "").context).1 = true ∧
      5 + size (batch_text (batch_candidates (counting_env true) (fresh 3 25 ""))) < 2 ^ 64) ∧
    (GenerateQuery (counting_env true) (fresh 3 25 "") 5).1 = "SELECT 0; SELECT 1; " ∧
    ∃ k, k ≤ batch_count (counting_env true) (fresh 3 25 "") ∧
      (GenerateQuery (counting_env true) (fresh 3 25 "") 5).1 =
        batch_text ((batch_candidates (counting_env true) (fresh 3 25 "")).take k) ∧
      (∀ j, 0 < j → j ≤ k →
        5 + size (batch_text ((batch_candidates (counting_env true) (fresh 3 25 "")).take j)) ≤
          (fresh 3 25 "").max_query_length) ∧
      (k < batch_count (counting_env true) (fresh 3 25 "") →
        (fresh 3 25 "").max_query_length <
          5 + size (batch_text
            ((batch_candidates (counting_env true) (fresh 3 25 "")).take (k + 1)))) ∧
      (5 ≤ (fresh 3 25 "").max_query_length →
        5 + size (GenerateQuery (counting_env true) (fresh 3 25 "") 5).1 ≤
          (fresh 3 25 "").max_query_length) :=
  ⟨⟨rfl, by decide⟩, by decide,
    GenerateQuery_multi_statement (counting_env true) (fresh 3 25 "") 5 rfl (by decide)⟩

end duckdb
